import Mathlib

/-!
Verification development for the megumi AVR XMEGA emulator core.

The C++ sources are shallowly embedded in Lean:
machine integers become `Nat` with explicit masking (`% 256`, `% 65536`,
bitwise masks) at the points where the C++ types wrap; the register file,
SRAM, flash and the block I/O space become functions out of `Nat`;
the four pending-interrupt sets (std::set) become `Finset Nat`;
side effects that leave the core (logging, block executeIv calls,
I/O writes delegated to peripheral blocks) are recorded as events.

Parts of the repository that are referenced by device.cpp but whose
definitions are not part of the sources at hand (common.h, clock.h,
pmic.h, cpu.h, clk.h) are modelled from the specification and marked
as such in their doc comments.
-/

namespace Meg

/-- Bit i of a natural number, as Bool. -/
def bitOf (x i : Nat) : Bool := (x >>> i) &&& 1 == 1

/-- Write a single bit of an 8-bit status byte.  Models assignment to a
one-bit bitfield: any nonzero C++ value stores 1 (the bitfield types of
common.h are not in the sources; boolean normalisation is modelled from
the spec's flag semantics). -/
def setFlag (sr i : Nat) (b : Bool) : Nat :=
  if b then sr ||| (1 <<< i) else sr &&& (255 ^^^ (1 <<< i))

/-- Signed value of an 8-bit byte (two's complement). -/
def s8 (v : Nat) : Int := if v < 128 then (v : Int) else (v : Int) - 256

/-- Sign extension of a b-bit field to Int (models u16_to_s16&lt;b&gt; and
u8_to_s8&lt;b&gt; of common.h, whose text is not in the sources; behaviour
modelled from the spec's signed-displacement descriptions). -/
def signExt (b v : Nat) : Int :=
  if v < 2 ^ (b - 1) then (v : Int) else (v : Int) - 2 ^ b

/-- Truncate an Int to an unsigned 16-bit value. -/
def i16 (x : Int) : Nat := (x % 65536).toNat

/-- Bitwise complement within 8 bits. -/
def c8 (v : Nat) : Nat := v ^^^ 255

/-- Bitwise complement within 16 bits. -/
def c16 (v : Nat) : Nat := v ^^^ 65535

/-- Program-counter arithmetic with a signed displacement; flashptr_t is
modelled as a 32-bit unsigned integer (common.h is not in the sources;
the spec gives the PC 17..22 significant bits). -/
def pcAdd (p : Nat) (d : Int) : Nat := (((p : Int) + d) % 4294967296).toNat

/-- Events emitted by the core towards collaborators that are outside
the embedded state: peripheral-block calls and log messages. -/
inductive DevEvent
  /-- Call of the owning block's executeIv hook, with the block-local
  vector number and the global vector number. -/
  | executeIv (localIv globalIv : Nat)
  /-- Critical-severity log entry. -/
  | logCritical
  /-- Error-severity log entry. -/
  | logError
  /-- Warning-severity log entry. -/
  | logWarn
  /-- Byte write delegated to the block owning an I/O address. -/
  | ioWrite (addr v : Nat)
deriving DecidableEq, Repr

/-- Constant per-device configuration (the const members set up by the
Device constructor).  ivBase maps a global interrupt vector number to
the iv_base of its owning block (the block registry lookup
iv_blocks_[iv]->iv_base()). -/
structure DeviceConfig where
  flashSize : Nat
  flashBootStart : Nat
  memEepromSize : Nat
  memSramSize : Nat
  memExsramStart : Nat
  memExsramSize : Nat
  rampMask : Nat
  eindMask : Nat
  ivBase : Nat → Nat

/-- Mutable device state.  reg is the 32-byte register file; sram is
indexed by offset from MEM_SRAM_START; flash is indexed by word address;
io is the oracle for byte reads of block I/O space (the peripheral
blocks behind getIoMem are outside the embedded core); ccp is the CCP
state byte as returned by ccpState(). -/
structure DeviceState where
  reg : Nat → Nat
  pc : Nat
  sp : Nat
  sreg : Nat
  rampd : Nat
  rampx : Nat
  rampy : Nat
  rampz : Nat
  eind : Nat
  sram : Nat → Nat
  flash : Nat → Nat
  clkSysTick : Nat
  pmicStatus : Nat
  pmicHilvlen : Bool
  pmicMedlvlen : Bool
  pmicLolvlen : Bool
  pmicIvsel : Bool
  pendLo : Finset Nat
  pendMed : Finset Nat
  pendHi : Finset Nat
  pendNmi : Finset Nat
  instructionCycles : Nat
  interruptWaitInstruction : Bool
  breaked : Bool
  io : Nat → Nat
  ccp : Nat
  events : List DevEvent

/-- Flash word read (flash_data_ stores uint16 words; the mask encodes
the element type). -/
def flashW (s : DeviceState) (i : Nat) : Nat := s.flash i % 65536

/-- Register byte read (regfile_ stores uint8). -/
def reg8 (s : DeviceState) (d : Nat) : Nat := s.reg d % 256

/-- Register byte write. -/
def setReg (s : DeviceState) (d v : Nat) : DeviceState :=
  { s with reg := fun i => if i = d then v % 256 else s.reg i }

/-- The 16-bit X view r27:r26 (little-endian per the register-file
aliasing described in the spec; Register of common.h is not in the
sources). -/
def regX (s : DeviceState) : Nat := reg8 s 26 + 256 * reg8 s 27

/-- The 16-bit Y view r29:r28. -/
def regY (s : DeviceState) : Nat := reg8 s 28 + 256 * reg8 s 29

/-- The 16-bit Z view r31:r30. -/
def regZ (s : DeviceState) : Nat := reg8 s 30 + 256 * reg8 s 31

/-- Write a 16-bit value into registers d (low) and d+1 (high):
register_set of common.h, little-endian per the spec. -/
def setReg16 (s : DeviceState) (d v : Nat) : DeviceState :=
  { s with reg := fun i =>
      if i = d then v % 256
      else if i = d + 1 then v / 256 % 256
      else s.reg i }

/-- Read the 16-bit register pair at d (register_get of common.h). -/
def reg16 (s : DeviceState) (d : Nat) : Nat := reg8 s d + 256 * reg8 s (d + 1)

/-- Write the reg01 view (r1:r0) used by the multiply opcodes. -/
def setReg01 (s : DeviceState) (v : Nat) : DeviceState := setReg16 s 0 v

/-- Append an event. -/
def emit (s : DeviceState) (e : DevEvent) : DeviceState :=
  { s with events := e :: s.events }

/-- SREG bit positions C=0 Z=1 N=2 V=3 S=4 H=5 T=6 I=7 (the SREG
bitfield union of cpu.h is not in the sources; positions are the
architectural ones named by the spec glossary). -/
def sregI (s : DeviceState) : Bool := bitOf s.sreg 7

/-- C flag read as 0 or 1 (used as an addend by ADC, SBC, ROR). -/
def carry (s : DeviceState) : Nat := s.sreg &&& 1

/-- T flag read as 0 or 1. -/
def tbit (s : DeviceState) : Nat := (s.sreg >>> 6) &&& 1

/-- Z flag as Bool. -/
def zflag (s : DeviceState) : Bool := bitOf s.sreg 1

/-- Smallest element of a pending-interrupt set; the sets model
std::set, whose begin() is the minimum.  Only called on non-empty
queues in the embedded code paths. -/
def qMin (q : Finset Nat) : Nat := if h : q.Nonempty then q.min' h else 0

/-- Device::currentIntLvl (device.cpp).  Levels are NONE=0 LO=1 MED=2
HI=3 NMI=4 with PMIC status encoding 1 &lt;&lt;&lt; (level-1). -/
def currentIntLvl (s : DeviceState) : Nat :=
  if s.pmicStatus = 0 then 0
  else if bitOf s.pmicStatus 3 then 4
  else if bitOf s.pmicStatus 2 then 3
  else if bitOf s.pmicStatus 1 then 2
  else if bitOf s.pmicStatus 0 then 1
  else 0

/-- Device::setIvLvl (device.cpp): the switch over the new level.
The C++ inserts into the target queue and then erases from the other
queues with early exits; each branch here is the composite effect of
one of those control paths, keyed on the same conditions (a failed
insert is a prior membership; a successful erase is a membership). -/
def setIvLvl (s : DeviceState) (iv lvl : Nat) : DeviceState :=
  if lvl = 0 then
    if iv ∈ s.pendLo then { s with pendLo := s.pendLo.erase iv }
    else if iv ∈ s.pendMed then { s with pendMed := s.pendMed.erase iv }
    else if iv ∈ s.pendHi then { s with pendHi := s.pendHi.erase iv }
    else if iv ∈ s.pendNmi then { s with pendNmi := s.pendNmi.erase iv }
    else s
  else if lvl = 1 then
    if iv ∈ s.pendLo then s
    else if iv ∈ s.pendMed then { s with pendLo := insert iv s.pendLo, pendMed := s.pendMed.erase iv }
    else if iv ∈ s.pendHi then { s with pendLo := insert iv s.pendLo, pendHi := s.pendHi.erase iv }
    else if iv ∈ s.pendNmi then { s with pendLo := insert iv s.pendLo, pendNmi := s.pendNmi.erase iv }
    else { s with pendLo := insert iv s.pendLo }
  else if lvl = 2 then
    if iv ∈ s.pendMed then s
    else if iv ∈ s.pendLo then { s with pendMed := insert iv s.pendMed, pendLo := s.pendLo.erase iv }
    else if iv ∈ s.pendHi then { s with pendMed := insert iv s.pendMed, pendHi := s.pendHi.erase iv }
    else if iv ∈ s.pendNmi then { s with pendMed := insert iv s.pendMed, pendNmi := s.pendNmi.erase iv }
    else { s with pendMed := insert iv s.pendMed }
  else if lvl = 3 then
    if iv ∈ s.pendHi then s
    else if iv ∈ s.pendLo then { s with pendHi := insert iv s.pendHi, pendLo := s.pendLo.erase iv }
    else if iv ∈ s.pendMed then { s with pendHi := insert iv s.pendHi, pendMed := s.pendMed.erase iv }
    else if iv ∈ s.pendNmi then { s with pendHi := insert iv s.pendHi, pendNmi := s.pendNmi.erase iv }
    else { s with pendHi := insert iv s.pendHi }
  else if lvl = 4 then
    if iv ∈ s.pendNmi then s
    else if iv ∈ s.pendLo then { s with pendNmi := insert iv s.pendNmi, pendLo := s.pendLo.erase iv }
    else if iv ∈ s.pendMed then { s with pendNmi := insert iv s.pendNmi, pendMed := s.pendMed.erase iv }
    else if iv ∈ s.pendHi then { s with pendNmi := insert iv s.pendNmi, pendHi := s.pendHi.erase iv }
    else { s with pendNmi := insert iv s.pendNmi }
  else emit s .logCritical

/-- Stack write of a 16-bit return PC at the current SP (stack_set of
common.h, not in the sources).  Modelled from the spec: the push path
writes the width-many bytes at the stack pointer going downwards before
SP is decremented; the byte order is chosen so that stackGet16 is its
inverse, which is the only property device.cpp relies on.  Indices are
offsets into sram_data_, i.e. sp - MEM_SRAM_START. -/
def stackSet16 (sram : Nat → Nat) (sp v : Nat) : Nat → Nat := fun i =>
  if i = sp - 0x2000 then v % 256
  else if i = sp - 0x2000 - 1 then v / 256 % 256
  else sram i

/-- Stack read of a 16-bit return PC at the current SP (stack_get of
common.h; modelled from the spec as the inverse of stackSet16). -/
def stackGet16 (sram : Nat → Nat) (sp : Nat) : Nat :=
  sram (sp - 0x2000) % 256 + 256 * (sram (sp - 0x2000 - 1) % 256)

/-- Stack write of a 24-bit return PC (stack_set with a 3-byte width;
modelled from the spec as for stackSet16). -/
def stackSet24 (sram : Nat → Nat) (sp v : Nat) : Nat → Nat := fun i =>
  if i = sp - 0x2000 then v % 256
  else if i = sp - 0x2000 - 1 then v / 256 % 256
  else if i = sp - 0x2000 - 2 then v / 65536 % 256
  else sram i

/-- Stack read of a 24-bit return PC (inverse of stackSet24). -/
def stackGet24 (sram : Nat → Nat) (sp : Nat) : Nat :=
  sram (sp - 0x2000) % 256 + 256 * (sram (sp - 0x2000 - 1) % 256)
    + 65536 * (sram (sp - 0x2000 - 2) % 256)

/-- Device::getIoMem (device.cpp): delegate a byte read to the owning
block.  The block registry and the blocks themselves are outside the
embedded core; the io oracle stands for the composite of
io_blocks_[addr]->getIo (and for the 0 returned when no block owns the
address). -/
def getIoMem (s : DeviceState) (addr : Nat) : Nat := s.io addr % 256

/-- Device::getEmulatorMem (device.cpp): the observability window. -/
def getEmulatorMem (s : DeviceState) (addr : Nat) : Nat :=
  let offset := addr - 0xFF00
  if offset ≤ 3 then (s.clkSysTick >>> (offset * 8)) &&& 255 else 0

/-- Device::getDataMem (device.cpp): the address-space router for
reads.  EEPROM and external SRAM are stubbed to 0 as in the source. -/
def getDataMem (cfg : DeviceConfig) (s : DeviceState) (addr : Nat) : Nat :=
  if addr < 0x1000 then getIoMem s addr
  else if 0x1000 ≤ addr ∧ addr < 0x1000 + cfg.memEepromSize then 0
  else if 0x2000 ≤ addr ∧ addr < 0x2000 + cfg.memSramSize then s.sram (addr - 0x2000) % 256
  else if 0xFF00 ≤ addr ∧ addr < 0xFF00 + 0x100 then getEmulatorMem s addr
  else if cfg.memExsramSize ≠ 0 ∧ cfg.memExsramStart ≤ addr ∧ addr < cfg.memExsramStart + cfg.memExsramSize then 0
  else 0

/-- Device::setDataMem (device.cpp): the address-space router for
writes.  Writes that leave the embedded state (I/O delegation to a
block) are recorded as events; stubbed or invalid destinations are
no-ops as in the source. -/
def setDataMem (cfg : DeviceConfig) (s : DeviceState) (addr v : Nat) : DeviceState :=
  if addr < 0x1000 then emit s (.ioWrite addr (v % 256))
  else if 0x1000 ≤ addr ∧ addr < 0x1000 + cfg.memEepromSize then emit s .logWarn
  else if 0x2000 ≤ addr ∧ addr < 0x2000 + cfg.memSramSize then
    { s with sram := fun i => if i = addr - 0x2000 then v % 256 else s.sram i }
  else if 0xFF00 ≤ addr ∧ addr < 0xFF00 + 0x100 then emit s .logError
  else if cfg.memExsramSize ≠ 0 ∧ cfg.memExsramStart ≤ addr ∧ addr < cfg.memExsramStart + cfg.memExsramSize then emit s .logWarn
  else emit s .logError

/-- Tail of Device::processPendingInterrupts after a queue has been
chosen and the vector removed from it: set the PMIC status bit, compute
the vector address with IVSEL, call the owning block's executeIv, push
the return PC (2 or 3 bytes after the 128 KiB flash boundary) and
redirect PC, in source order. -/
def ackIv (cfg : DeviceConfig) (s : DeviceState) (lvlNew iv : Nat) : DeviceState :=
  let s1 := { s with pmicStatus := s.pmicStatus ||| (1 <<< (lvlNew - 1)) }
  let ivAddr := 2 * iv + (if s1.pmicIvsel then cfg.flashBootStart else 0)
  let s2 := emit s1 (.executeIv (iv - cfg.ivBase iv) iv)
  let s3 :=
    if cfg.flashSize ≤ 0x20000 then
      { s2 with sram := stackSet16 s2.sram s2.sp s2.pc, sp := (s2.sp + 65534) % 65536 }
    else
      { s2 with sram := stackSet24 s2.sram s2.sp s2.pc, sp := (s2.sp + 65533) % 65536 }
  { s3 with pc := ivAddr }

/-- Device::processPendingInterrupts (device.cpp): arbitration against
the current level and dispatch of the smallest pending vector of the
chosen queue. -/
def processPendingInterrupts (cfg : DeviceConfig) (s : DeviceState) : Bool × DeviceState :=
  let intlvl := currentIntLvl s
  if 4 ≤ intlvl then (false, s)
  else if s.pendNmi.Nonempty then
    let iv := qMin s.pendNmi
    (true, ackIv cfg { s with pendNmi := s.pendNmi.erase iv } 4 iv)
  else if 3 ≤ intlvl then (false, s)
  else if s.pmicHilvlen = true ∧ s.pendHi.Nonempty then
    let iv := qMin s.pendHi
    (true, ackIv cfg { s with pendHi := s.pendHi.erase iv } 3 iv)
  else if 2 ≤ intlvl then (false, s)
  else if s.pmicMedlvlen = true ∧ s.pendMed.Nonempty then
    let iv := qMin s.pendMed
    (true, ackIv cfg { s with pendMed := s.pendMed.erase iv } 2 iv)
  else if 1 ≤ intlvl then (false, s)
  else if s.pmicLolvlen = true ∧ s.pendLo.Nonempty then
    let iv := qMin s.pendLo
    (true, ackIv cfg { s with pendLo := s.pendLo.erase iv } 1 iv)
  else (false, s)

/-- Two-word opcode test opcode_is_32b (device.cpp): JMP, CALL, LDS,
STS. -/
def opcode_is_32b (op : Nat) : Bool :=
  (op &&& 0xFE0C == 0x940C) || (op &&& 0xFC0F == 0x9000)

/-- One constructor per branch of the opcode if/else chain of
Device::executeNextInstruction (device.cpp), in source terms. -/
inductive Tag
  | nop | bset | bclr | sbi | cbi
  | com | neg | swap | inc | asr | lsr | ror | dec
  | cp | cpc | add | adc | sub | sbc
  | mul | muls | mulsu | fmul | fmuls | fmulsu
  | andr | eorr | orr | movr
  | cpi | subi | sbci | andi | ori
  | movw | adiw | sbiw | bld | bst | ldi
  | lds | ldxi | ldxii | ldxiii | lddy | ldyii | ldyiii | lddz | ldzii | ldziii
  | sts | stxi | stxii | stxiii | stdy | styii | styiii | stdz | stzii | stziii
  | lpmi | lpmii | elpmi | elpmii | spm
  | xch | lac | las | lat
  | jmp | rjmp | ijmp | eijmp | brb | sbrx | sbix | cpse
  | call | rcall | icall | eicall | ret | reti
  | pop | push | ain | aout
  | wdr | slp | brk | des | unknown
deriving DecidableEq, Repr

/-- The decode chain of Device::executeNextInstruction: the masked
if/else tests in their exact source order (including the unreachable
FMULSU arm, whose guard repeats the FMULS guard in the source). -/
def dispatchTag (op : Nat) : Tag :=
  if op = 0 then .nop
  else if op &&& 0xFF8F = 0x9408 then .bset
  else if op &&& 0xFF8F = 0x9488 then .bclr
  else if op &&& 0xFF00 = 0x9A00 then .sbi
  else if op &&& 0xFF00 = 0x9800 then .cbi
  else if op &&& 0xFE0F = 0x9400 then .com
  else if op &&& 0xFE0F = 0x9401 then .neg
  else if op &&& 0xFE0F = 0x9402 then .swap
  else if op &&& 0xFE0F = 0x9403 then .inc
  else if op &&& 0xFE0F = 0x9405 then .asr
  else if op &&& 0xFE0F = 0x9406 then .lsr
  else if op &&& 0xFE0F = 0x9407 then .ror
  else if op &&& 0xFE0F = 0x940A then .dec
  else if op &&& 0xFC00 = 0x1400 then .cp
  else if op &&& 0xFC00 = 0x0400 then .cpc
  else if op &&& 0xFC00 = 0x0C00 then .add
  else if op &&& 0xFC00 = 0x1C00 then .adc
  else if op &&& 0xFC00 = 0x1800 then .sub
  else if op &&& 0xFC00 = 0x0800 then .sbc
  else if op &&& 0xFC00 = 0x9C00 then .mul
  else if op &&& 0xFF00 = 0x0200 then .muls
  else if op &&& 0xFF88 = 0x0300 then .mulsu
  else if op &&& 0xFF88 = 0x0308 then .fmul
  else if op &&& 0xFF88 = 0x0380 then .fmuls
  else if op &&& 0xFF88 = 0x0380 then .fmulsu
  else if op &&& 0xFC00 = 0x2000 then .andr
  else if op &&& 0xFC00 = 0x2400 then .eorr
  else if op &&& 0xFC00 = 0x2800 then .orr
  else if op &&& 0xFC00 = 0x2C00 then .movr
  else if op &&& 0xF000 = 0x3000 then .cpi
  else if op &&& 0xF000 = 0x5000 then .subi
  else if op &&& 0xF000 = 0x4000 then .sbci
  else if op &&& 0xF000 = 0x7000 then .andi
  else if op &&& 0xF000 = 0x6000 then .ori
  else if op &&& 0xFF00 = 0x0100 then .movw
  else if op &&& 0xFF00 = 0x9600 then .adiw
  else if op &&& 0xFF00 = 0x9700 then .sbiw
  else if op &&& 0xFE08 = 0xF800 then .bld
  else if op &&& 0xFE08 = 0xFA00 then .bst
  else if op &&& 0xF000 = 0xE000 then .ldi
  else if op &&& 0xFE0F = 0x9000 then .lds
  else if op &&& 0xFE0F = 0x900C then .ldxi
  else if op &&& 0xFE0F = 0x900D then .ldxii
  else if op &&& 0xFE0F = 0x900E then .ldxiii
  else if op &&& 0xD208 = 0x8008 then .lddy
  else if op &&& 0xFE0F = 0x9009 then .ldyii
  else if op &&& 0xFE0F = 0x900A then .ldyiii
  else if op &&& 0xD208 = 0x8000 then .lddz
  else if op &&& 0xFE0F = 0x9001 then .ldzii
  else if op &&& 0xFE0F = 0x9002 then .ldziii
  else if op &&& 0xFE0F = 0x9200 then .sts
  else if op &&& 0xFE0F = 0x920C then .stxi
  else if op &&& 0xFE0F = 0x920D then .stxii
  else if op &&& 0xFE0F = 0x920E then .stxiii
  else if op &&& 0xD208 = 0x8208 then .stdy
  else if op &&& 0xFE0F = 0x9209 then .styii
  else if op &&& 0xFE0F = 0x920A then .styiii
  else if op &&& 0xD208 = 0x8200 then .stdz
  else if op &&& 0xFE0F = 0x9201 then .stzii
  else if op &&& 0xFE0F = 0x9202 then .stziii
  else if op = 0x95C8 then .lpmi
  else if op &&& 0xFE0E = 0x9004 then .lpmii
  else if op = 0x95D8 then .elpmi
  else if op &&& 0xFE0E = 0x9006 then .elpmii
  else if op = 0x95E8 ∨ op = 0x95F8 then .spm
  else if op &&& 0xFE0F = 0x9204 then .xch
  else if op &&& 0xFE0F = 0x9206 then .lac
  else if op &&& 0xFE0F = 0x9205 then .las
  else if op &&& 0xFE0F = 0x9207 then .lat
  else if op &&& 0xFE0E = 0x940C then .jmp
  else if op &&& 0xF000 = 0xC000 then .rjmp
  else if op = 0x9409 then .ijmp
  else if op = 0x9419 then .eijmp
  else if op &&& 0xF800 = 0xF000 then .brb
  else if op &&& 0xFC00 = 0xFC00 then .sbrx
  else if op &&& 0xFD00 = 0x9900 then .sbix
  else if op &&& 0xFC00 = 0x1000 then .cpse
  else if op &&& 0xFE0E = 0x940E then .call
  else if op &&& 0xF000 = 0xD000 then .rcall
  else if op = 0x9509 then .icall
  else if op = 0x9519 then .eicall
  else if op = 0x9508 then .ret
  else if op = 0x9518 then .reti
  else if op &&& 0xFE0F = 0x900F then .pop
  else if op &&& 0xFE0F = 0x920F then .push
  else if op &&& 0xF800 = 0xB000 then .ain
  else if op &&& 0xF800 = 0xB800 then .aout
  else if op = 0x95A8 then .wdr
  else if op = 0x9588 then .slp
  else if op = 0x9598 then .brk
  else if op &&& 0xFF0F = 0x940B then .des
  else .unknown

/-- PC increment; flashptr_t modelled as 32-bit unsigned. -/
def pcInc (s : DeviceState) (n : Nat) : DeviceState :=
  { s with pc := (s.pc + n) % 4294967296 }

/-- Device::setIoMem: delegate a byte write to the owning block,
recorded as an event (the blocks are outside the embedded core). -/
def setIoMem (s : DeviceState) (addr v : Nat) : DeviceState :=
  emit s (.ioWrite addr (v % 256))

/-- Bit 7 of an 8-bit value, the form taken by the masked flag
expressions `expr &amp; 0x80` of the source. -/
def bit7 (x : Nat) : Bool := bitOf x 7

/-- Bit 3 of an 8-bit value (`expr &amp; 0x08` in the source H flags). -/
def bit3 (x : Nat) : Bool := bitOf x 3

/-- Bit 15 of a 16-bit value (`expr &amp; 0x8000` in the source). -/
def bit15 (x : Nat) : Bool := bitOf x 15

/-- Write flags C,Z,N,V,S,H; S is N xor V as in the source's
assignment sequence. -/
def sregCZNVSH (sr : Nat) (c z n v h : Bool) : Nat :=
  setFlag (setFlag (setFlag (setFlag (setFlag (setFlag sr 0 c) 1 z) 2 n) 3 v) 4 (n != v)) 5 h

/-- Write flags C,Z,N,V,S (H untouched). -/
def sregCZNVS (sr : Nat) (c z n v : Bool) : Nat :=
  setFlag (setFlag (setFlag (setFlag (setFlag sr 0 c) 1 z) 2 n) 3 v) 4 (n != v)

/-- Write flags Z,N,V,S (C,H untouched). -/
def sregZNVS (sr : Nat) (z n v : Bool) : Nat :=
  setFlag (setFlag (setFlag (setFlag sr 1 z) 2 n) 3 v) 4 (n != v)

/-- NOP. -/
def execNOP (s : DeviceState) : DeviceState × Nat := (pcInc s 1, 1)

/-- BSET and its aliases. -/
def execBSET (op : Nat) (s : DeviceState) : DeviceState × Nat :=
  let b := (op >>> 4) &&& 7
  let sr1 := s.sreg ||| (1 <<< b)
  (pcInc { s with sreg := sr1 } 1, 1)

/-- BCLR and its aliases. -/
def execBCLR (op : Nat) (s : DeviceState) : DeviceState × Nat :=
  let b := (op >>> 4) &&& 7
  let sr1 := s.sreg &&& (255 ^^^ (1 <<< b))
  (pcInc { s with sreg := sr1 } 1, 1)

/-- SBI (whole-byte read-modify-write, as the source does). -/
def execSBI (op : Nat) (s : DeviceState) : DeviceState × Nat :=
  let a := (op >>> 3) &&& 0x1F
  let b := op &&& 7
  (pcInc (setIoMem s a (getIoMem s a ||| (1 <<< b))) 1, 1)

/-- CBI (whole-byte read-modify-write, as the source does). -/
def execCBI (op : Nat) (s : DeviceState) : DeviceState × Nat :=
  let a := (op >>> 3) &&& 0x1F
  let b := op &&& 7
  (pcInc (setIoMem s a (getIoMem s a &&& c8 (1 <<< b))) 1, 1)

/-- COM. -/
def execCOM (op : Nat) (s : DeviceState) : DeviceState × Nat :=
  let d := (op >>> 4) &&& 0x1F
  let R := 255 - reg8 s d
  let s1 := setReg s d R
  let sr1 := sregCZNVS s1.sreg true (R == 0) (bit7 R) false
  (pcInc { s1 with sreg := sr1 } 1, 1)

/-- NEG. -/
def execNEG (op : Nat) (s : DeviceState) : DeviceState × Nat :=
  let d := (op >>> 4) &&& 0x1F
  let Rd := reg8 s d
  let R := (256 - Rd) % 256
  let s1 := setReg s d R
  let sr1 := sregCZNVSH s1.sreg (R != 0) (R == 0) (bit7 R) (R == 0x80) (bit3 (R &&& Rd))
  (pcInc { s1 with sreg := sr1 } 1, 1)

/-- SWAP. -/
def execSWAP (op : Nat) (s : DeviceState) : DeviceState × Nat :=
  let d := (op >>> 4) &&& 0x1F
  let Rd := reg8 s d
  (pcInc (setReg s d (((Rd &&& 0x0F) <<< 4) ||| ((Rd &&& 0xF0) >>> 4))) 1, 1)

/-- INC. -/
def execINC (op : Nat) (s : DeviceState) : DeviceState × Nat :=
  let d := (op >>> 4) &&& 0x1F
  let R := (reg8 s d + 1) % 256
  let s1 := setReg s d R
  let sr1 := sregZNVS s1.sreg (R == 0) (bit7 R) (R == 0x80)
  (pcInc { s1 with sreg := sr1 } 1, 1)

/-- ASR. -/
def execASR (op : Nat) (s : DeviceState) : DeviceState × Nat :=
  let d := (op >>> 4) &&& 0x1F
  let Rd := reg8 s d
  let R := (Rd >>> 1) ||| (Rd &&& 0x80)
  let c := (Rd &&& 1) != 0
  let n := bit7 R
  let s1 := setReg s d R
  let sr1 := sregCZNVS s1.sreg c (R == 0) n (n != c)
  (pcInc { s1 with sreg := sr1 } 1, 1)

/-- LSR. -/
def execLSR (op : Nat) (s : DeviceState) : DeviceState × Nat :=
  let d := (op >>> 4) &&& 0x1F
  let Rd := reg8 s d
  let R := Rd >>> 1
  let c := (Rd &&& 1) != 0
  let s1 := setReg s d R
  let sr1 := sregCZNVS s1.sreg c (R == 0) false (false != c)
  (pcInc { s1 with sreg := sr1 } 1, 1)

/-- ROR. -/
def execROR (op : Nat) (s : DeviceState) : DeviceState × Nat :=
  let d := (op >>> 4) &&& 0x1F
  let Rd := reg8 s d
  let R := (Rd >>> 1) ||| (carry s <<< 7)
  let c := (Rd &&& 1) != 0
  let n := bit7 R
  let s1 := setReg s d R
  let sr1 := sregCZNVS s1.sreg c (R == 0) n (n != c)
  (pcInc { s1 with sreg := sr1 } 1, 1)

/-- DEC. -/
def execDEC (op : Nat) (s : DeviceState) : DeviceState × Nat :=
  let d := (op >>> 4) &&& 0x1F
  let R := (reg8 s d + 255) % 256
  let s1 := setReg s d R
  let sr1 := sregZNVS s1.sreg (R == 0) (bit7 R) (R == 0x80)
  (pcInc { s1 with sreg := sr1 } 1, 1)

/-- Flag bundle of the 8-bit subtract family (borrow expression of the
source, on the complement-within-8-bits values). -/
def subCarryExpr (Rd Rr R : Nat) : Nat := (c8 Rd &&& Rr) ||| (Rr &&& R) ||| (R &&& c8 Rd)

/-- Overflow expression of the 8-bit subtract family. -/
def subVExpr (Rd Rr R : Nat) : Nat := (Rd &&& c8 Rr &&& c8 R) ||| (c8 Rd &&& Rr &&& R)

/-- Carry expression of the 8-bit add family. -/
def addCarryExpr (Rd Rr R : Nat) : Nat := (Rd &&& Rr) ||| (Rr &&& c8 R) ||| (c8 R &&& Rd)

/-- Overflow expression of the 8-bit add family. -/
def addVExpr (Rd Rr R : Nat) : Nat := (Rd &&& Rr &&& c8 R) ||| (c8 Rd &&& c8 Rr &&& R)

/-- Second source-register number of the r/r opcode forms. -/
def rOf (op : Nat) : Nat := (op &&& 0xF) ||| ((op >>> 5) &&& 0x10)

/-- CP. -/
def execCP (op : Nat) (s : DeviceState) : DeviceState × Nat :=
  let d := (op >>> 4) &&& 0x1F
  let Rd := reg8 s d
  let Rr := reg8 s (rOf op)
  let R := (Rd + 256 - Rr) % 256
  let sr1 := sregCZNVSH s.sreg (bit7 (subCarryExpr Rd Rr R)) (R == 0) (bit7 R) (bit7 (subVExpr Rd Rr R)) (bit3 (subCarryExpr Rd Rr R))
  (pcInc { s with sreg := sr1 } 1, 1)

/-- CPC; Z is conjoined with its previous value as in the source. -/
def execCPC (op : Nat) (s : DeviceState) : DeviceState × Nat :=
  let d := (op >>> 4) &&& 0x1F
  let Rd := reg8 s d
  let Rr := reg8 s (rOf op)
  let R := (Rd + 512 - Rr - carry s) % 256
  let sr1 := sregCZNVSH s.sreg (bit7 (subCarryExpr Rd Rr R)) ((R == 0) && zflag s) (bit7 R) (bit7 (subVExpr Rd Rr R)) (bit3 (subCarryExpr Rd Rr R))
  (pcInc { s with sreg := sr1 } 1, 1)

/-- ADD (LSL alias). -/
def execADD (op : Nat) (s : DeviceState) : DeviceState × Nat :=
  let d := (op >>> 4) &&& 0x1F
  let Rd := reg8 s d
  let Rr := reg8 s (rOf op)
  let R := (Rd + Rr) % 256
  let s1 := setReg s d R
  let sr1 := sregCZNVSH s1.sreg (bit7 (addCarryExpr Rd Rr R)) (R == 0) (bit7 R) (bit7 (addVExpr Rd Rr R)) (bit3 (addCarryExpr Rd Rr R))
  (pcInc { s1 with sreg := sr1 } 1, 1)

/-- ADC (ROL alias). -/
def execADC (op : Nat) (s : DeviceState) : DeviceState × Nat :=
  let d := (op >>> 4) &&& 0x1F
  let Rd := reg8 s d
  let Rr := reg8 s (rOf op)
  let R := (Rd + Rr + carry s) % 256
  let s1 := setReg s d R
  let sr1 := sregCZNVSH s1.sreg (bit7 (addCarryExpr Rd Rr R)) (R == 0) (bit7 R) (bit7 (addVExpr Rd Rr R)) (bit3 (addCarryExpr Rd Rr R))
  (pcInc { s1 with sreg := sr1 } 1, 1)

/-- SUB. -/
def execSUB (op : Nat) (s : DeviceState) : DeviceState × Nat :=
  let d := (op >>> 4) &&& 0x1F
  let Rd := reg8 s d
  let Rr := reg8 s (rOf op)
  let R := (Rd + 256 - Rr) % 256
  let s1 := setReg s d R
  let sr1 := sregCZNVSH s1.sreg (bit7 (subCarryExpr Rd Rr R)) (R == 0) (bit7 R) (bit7 (subVExpr Rd Rr R)) (bit3 (subCarryExpr Rd Rr R))
  (pcInc { s1 with sreg := sr1 } 1, 1)

/-- SBC; the source sets Z plainly (not conjoined). -/
def execSBC (op : Nat) (s : DeviceState) : DeviceState × Nat :=
  let d := (op >>> 4) &&& 0x1F
  let Rd := reg8 s d
  let Rr := reg8 s (rOf op)
  let R := (Rd + 512 - Rr - carry s) % 256
  let s1 := setReg s d R
  let sr1 := sregCZNVSH s1.sreg (bit7 (subCarryExpr Rd Rr R)) (R == 0) (bit7 R) (bit7 (subVExpr Rd Rr R)) (bit3 (subCarryExpr Rd Rr R))
  (pcInc { s1 with sreg := sr1 } 1, 1)

/-- MUL. -/
def execMUL (op : Nat) (s : DeviceState) : DeviceState × Nat :=
  let d := (op >>> 4) &&& 0x1F
  let R := reg8 s d * reg8 s (rOf op)
  let s1 := setReg01 s R
  let sr1 := setFlag (setFlag s1.sreg 0 (bit15 R)) 1 (R == 0)
  (pcInc { s1 with sreg := sr1 } 1, 2)

/-- MULS. -/
def execMULS (op : Nat) (s : DeviceState) : DeviceState × Nat :=
  let d := ((op >>> 4) &&& 0xF) ||| 0x10
  let r := (op &&& 0xF) ||| 0x10
  let R := i16 (s8 (reg8 s d) * s8 (reg8 s r))
  let s1 := setReg01 s R
  let sr1 := setFlag (setFlag s1.sreg 0 (bit15 R)) 1 (R == 0)
  (pcInc { s1 with sreg := sr1 } 1, 2)

/-- MULSU. -/
def execMULSU (op : Nat) (s : DeviceState) : DeviceState × Nat :=
  let d := ((op >>> 4) &&& 0x7) ||| 0x10
  let r := (op &&& 0x7) ||| 0x10
  let R := i16 (s8 (reg8 s d) * (reg8 s r : Int))
  let s1 := setReg01 s R
  let sr1 := setFlag (setFlag s1.sreg 0 (bit15 R)) 1 (R == 0)
  (pcInc { s1 with sreg := sr1 } 1, 2)

/-- FMUL: carry from the pre-shift product. -/
def execFMUL (op : Nat) (s : DeviceState) : DeviceState × Nat :=
  let d := ((op >>> 4) &&& 0x7) ||| 0x10
  let r := (op &&& 0x7) ||| 0x10
  let R0 := reg8 s d * reg8 s r
  let R := (R0 <<< 1) % 65536
  let s1 := setReg01 s R
  let sr1 := setFlag (setFlag s1.sreg 0 (bit15 R0)) 1 (R == 0)
  (pcInc { s1 with sreg := sr1 } 1, 2)

/-- FMULS. -/
def execFMULS (op : Nat) (s : DeviceState) : DeviceState × Nat :=
  let d := ((op >>> 4) &&& 0x7) ||| 0x10
  let r := (op &&& 0x7) ||| 0x10
  let R0 := i16 (s8 (reg8 s d) * s8 (reg8 s r))
  let R := (R0 <<< 1) % 65536
  let s1 := setReg01 s R
  let sr1 := setFlag (setFlag s1.sreg 0 (bit15 R0)) 1 (R == 0)
  (pcInc { s1 with sreg := sr1 } 1, 2)

/-- FMULSU: the body of the unreachable source arm, kept for
completeness (its guard repeats the FMULS guard). -/
def execFMULSU (op : Nat) (s : DeviceState) : DeviceState × Nat :=
  let d := ((op >>> 4) &&& 0x7) ||| 0x10
  let r := (op &&& 0x7) ||| 0x10
  let R0 := i16 (s8 (reg8 s d) * (reg8 s r : Int))
  let R := (R0 <<< 1) % 65536
  let s1 := setReg01 s R
  let sr1 := setFlag (setFlag s1.sreg 0 (bit15 R0)) 1 (R == 0)
  (pcInc { s1 with sreg := sr1 } 1, 2)

/-- AND (TST alias). -/
def execAND (op : Nat) (s : DeviceState) : DeviceState × Nat :=
  let d := (op >>> 4) &&& 0x1F
  let R := reg8 s d &&& reg8 s (rOf op)
  let s1 := setReg s d R
  let sr1 := sregZNVS s1.sreg (R == 0) (bit7 R) false
  (pcInc { s1 with sreg := sr1 } 1, 1)

/-- EOR (CLR alias). -/
def execEOR (op : Nat) (s : DeviceState) : DeviceState × Nat :=
  let d := (op >>> 4) &&& 0x1F
  let R := reg8 s d ^^^ reg8 s (rOf op)
  let s1 := setReg s d R
  let sr1 := sregZNVS s1.sreg (R == 0) (bit7 R) false
  (pcInc { s1 with sreg := sr1 } 1, 1)

/-- OR. -/
def execOR (op : Nat) (s : DeviceState) : DeviceState × Nat :=
  let d := (op >>> 4) &&& 0x1F
  let R := reg8 s d ||| reg8 s (rOf op)
  let s1 := setReg s d R
  let sr1 := sregZNVS s1.sreg (R == 0) (bit7 R) false
  (pcInc { s1 with sreg := sr1 } 1, 1)

/-- MOV. -/
def execMOV (op : Nat) (s : DeviceState) : DeviceState × Nat :=
  let d := (op >>> 4) &&& 0x1F
  (pcInc (setReg s d (reg8 s (rOf op))) 1, 1)

/-- Immediate operand of the upper-register immediate forms. -/
def kOf (op : Nat) : Nat := (op &&& 0xF) ||| ((op >>> 4) &&& 0xF0)

/-- CPI. -/
def execCPI (op : Nat) (s : DeviceState) : DeviceState × Nat :=
  let d := ((op >>> 4) &&& 0xF) ||| 0x10
  let K := kOf op
  let Rd := reg8 s d
  let R := (Rd + 256 - K) % 256
  let sr1 := sregCZNVSH s.sreg (bit7 (subCarryExpr Rd K R)) (R == 0) (bit7 R) (bit7 (subVExpr Rd K R)) (bit3 (subCarryExpr Rd K R))
  (pcInc { s with sreg := sr1 } 1, 1)

/-- SUBI. -/
def execSUBI (op : Nat) (s : DeviceState) : DeviceState × Nat :=
  let d := ((op >>> 4) &&& 0xF) ||| 0x10
  let K := kOf op
  let Rd := reg8 s d
  let R := (Rd + 256 - K) % 256
  let s1 := setReg s d R
  let sr1 := sregCZNVSH s1.sreg (bit7 (subCarryExpr Rd K R)) (R == 0) (bit7 R) (bit7 (subVExpr Rd K R)) (bit3 (subCarryExpr Rd K R))
  (pcInc { s1 with sreg := sr1 } 1, 1)

/-- SBCI; the source sets Z plainly. -/
def execSBCI (op : Nat) (s : DeviceState) : DeviceState × Nat :=
  let d := ((op >>> 4) &&& 0xF) ||| 0x10
  let K := kOf op
  let Rd := reg8 s d
  let R := (Rd + 512 - K - carry s) % 256
  let s1 := setReg s d R
  let sr1 := sregCZNVSH s1.sreg (bit7 (subCarryExpr Rd K R)) (R == 0) (bit7 R) (bit7 (subVExpr Rd K R)) (bit3 (subCarryExpr Rd K R))
  (pcInc { s1 with sreg := sr1 } 1, 1)

/-- ANDI (CBR alias). -/
def execANDI (op : Nat) (s : DeviceState) : DeviceState × Nat :=
  let d := ((op >>> 4) &&& 0xF) ||| 0x10
  let R := reg8 s d &&& kOf op
  let s1 := setReg s d R
  let sr1 := sregZNVS s1.sreg (R == 0) (bit7 R) false
  (pcInc { s1 with sreg := sr1 } 1, 1)

/-- ORI (SBR alias). -/
def execORI (op : Nat) (s : DeviceState) : DeviceState × Nat :=
  let d := ((op >>> 4) &&& 0xF) ||| 0x10
  let R := reg8 s d ||| kOf op
  let s1 := setReg s d R
  let sr1 := sregZNVS s1.sreg (R == 0) (bit7 R) false
  (pcInc { s1 with sreg := sr1 } 1, 1)

/-- MOVW. -/
def execMOVW (op : Nat) (s : DeviceState) : DeviceState × Nat :=
  let d := (op >>> 3) &&& 0x1E
  let r := (op &&& 0xF) <<< 1
  (pcInc (setReg16 s d (reg16 s r)) 1, 1)

/-- ADIW; the source keeps the default single cycle. -/
def execADIW (op : Nat) (s : DeviceState) : DeviceState × Nat :=
  let d := ((op >>> 3) &&& 0x6) + 24
  let K := (op &&& 0xF) ||| ((op >>> 2) &&& 0x30)
  let Rd := reg16 s d
  let R := (Rd + K) % 65536
  let s1 := setReg16 s d R
  let sr1 := sregCZNVS s1.sreg (bit15 (c16 R &&& Rd)) (R == 0) (bit15 R) (bit15 (R &&& c16 Rd))
  (pcInc { s1 with sreg := sr1 } 1, 1)

/-- SBIW; C and V use the same expression, as in the source. -/
def execSBIW (op : Nat) (s : DeviceState) : DeviceState × Nat :=
  let d := ((op >>> 3) &&& 0x6) + 24
  let K := (op &&& 0xF) ||| ((op >>> 2) &&& 0x30)
  let Rd := reg16 s d
  let R := (Rd + 65536 - K) % 65536
  let s1 := setReg16 s d R
  let sr1 := sregCZNVS s1.sreg (bit15 (R &&& c16 Rd)) (R == 0) (bit15 R) (bit15 (R &&& c16 Rd))
  (pcInc { s1 with sreg := sr1 } 1, 1)

/-- BLD. -/
def execBLD (op : Nat) (s : DeviceState) : DeviceState × Nat :=
  let d := (op >>> 4) &&& 0x1F
  let b := op &&& 7
  (pcInc (setReg s d ((reg8 s d &&& c8 (1 <<< b)) ||| (tbit s <<< b))) 1, 1)

/-- BST. -/
def execBST (op : Nat) (s : DeviceState) : DeviceState × Nat :=
  let d := (op >>> 4) &&& 0x1F
  let b := op &&& 7
  let sr1 := setFlag s.sreg 6 ((reg8 s d &&& (1 <<< b)) != 0)
  (pcInc { s with sreg := sr1 } 1, 1)

/-- LDI (SER alias). -/
def execLDI (op : Nat) (s : DeviceState) : DeviceState × Nat :=
  let d := ((op >>> 4) &&& 0xF) ||| 0x10
  (pcInc (setReg s d (kOf op)) 1, 1)

/-- Extra cycle the source adds for data accesses at or above
MEM_SRAM_START. -/
def sramBump (addr : Nat) : Nat := if 0x2000 ≤ addr then 1 else 0

/-- LDS (16-bit direct). -/
def execLDS (cfg : DeviceConfig) (op : Nat) (s : DeviceState) : DeviceState × Nat :=
  let d := (op >>> 4) &&& 0x1F
  let k := flashW s (s.pc + 1)
  let addr := k ||| (s.rampd <<< 16)
  (pcInc (setReg s d (getDataMem cfg s addr)) 2, 2 + sramBump addr)

/-- LD through X, plain form. -/
def execLDXi (cfg : DeviceConfig) (op : Nat) (s : DeviceState) : DeviceState × Nat :=
  let d := (op >>> 4) &&& 0x1F
  let addr := regX s ||| (s.rampx <<< 16)
  (pcInc (setReg s d (getDataMem cfg s addr)) 1, 1 + sramBump addr)

/-- LD through X with post-increment, RAMPX carried on wrap. -/
def execLDXii (cfg : DeviceConfig) (op : Nat) (s : DeviceState) : DeviceState × Nat :=
  let d := (op >>> 4) &&& 0x1F
  let s0 := if d = 26 ∨ d = 27 then emit s .logCritical else s
  let addr := regX s0 ||| (s0.rampx <<< 16)
  let s1 := setReg s0 d (getDataMem cfg s0 addr)
  let newX := (regX s1 + 1) % 65536
  let s2 := setReg16 s1 26 newX
  let s3 := if newX = 0 then { s2 with rampx := ((s2.rampx + 1) % 256) &&& cfg.rampMask } else s2
  (pcInc s3 1, 1 + sramBump addr)

/-- LD through X with pre-decrement, RAMPX borrowed on wrap. -/
def execLDXiii (cfg : DeviceConfig) (op : Nat) (s : DeviceState) : DeviceState × Nat :=
  let d := (op >>> 4) &&& 0x1F
  let s0 := if d = 26 ∨ d = 27 then emit s .logCritical else s
  let newX := (regX s0 + 65535) % 65536
  let s1 := setReg16 s0 26 newX
  let s2 := if newX = 65535 then { s1 with rampx := ((s1.rampx + 255) % 256) &&& cfg.rampMask } else s1
  let addr := newX ||| (s2.rampx <<< 16)
  (pcInc (setReg s2 d (getDataMem cfg s2 addr)) 1, 2 + sramBump addr)

/-- Displacement field of the LDD/STD forms. -/
def qOf (op : Nat) : Nat := (op &&& 0x7) ||| ((op >>> 7) &&& 0x18) ||| ((op >>> 8) &&& 0x20)

/-- LD/LDD through Y with displacement. -/
def execLDDY (cfg : DeviceConfig) (op : Nat) (s : DeviceState) : DeviceState × Nat :=
  let d := (op >>> 4) &&& 0x1F
  let q := qOf op
  let addr := (regY s ||| (s.rampy <<< 16)) + q
  (pcInc (setReg s d (getDataMem cfg s addr)) 1, (if q ≠ 0 then 2 else 1) + sramBump addr)

/-- LD through Y with post-increment. -/
def execLDYii (cfg : DeviceConfig) (op : Nat) (s : DeviceState) : DeviceState × Nat :=
  let d := (op >>> 4) &&& 0x1F
  let s0 := if d = 28 ∨ d = 29 then emit s .logCritical else s
  let addr := regY s0 ||| (s0.rampy <<< 16)
  let s1 := setReg s0 d (getDataMem cfg s0 addr)
  let newY := (regY s1 + 1) % 65536
  let s2 := setReg16 s1 28 newY
  let s3 := if newY = 0 then { s2 with rampy := ((s2.rampy + 1) % 256) &&& cfg.rampMask } else s2
  (pcInc s3 1, 1 + sramBump addr)

/-- LD through Y with pre-decrement. -/
def execLDYiii (cfg : DeviceConfig) (op : Nat) (s : DeviceState) : DeviceState × Nat :=
  let d := (op >>> 4) &&& 0x1F
  let s0 := if d = 28 ∨ d = 29 then emit s .logCritical else s
  let newY := (regY s0 + 65535) % 65536
  let s1 := setReg16 s0 28 newY
  let s2 := if newY = 65535 then { s1 with rampy := ((s1.rampy + 255) % 256) &&& cfg.rampMask } else s1
  let addr := newY ||| (s2.rampy <<< 16)
  (pcInc (setReg s2 d (getDataMem cfg s2 addr)) 1, 2 + sramBump addr)

/-- LD/LDD through Z with displacement. -/
def execLDDZ (cfg : DeviceConfig) (op : Nat) (s : DeviceState) : DeviceState × Nat :=
  let d := (op >>> 4) &&& 0x1F
  let q := qOf op
  let addr := (regZ s ||| (s.rampz <<< 16)) + q
  (pcInc (setReg s d (getDataMem cfg s addr)) 1, (if q ≠ 0 then 2 else 1) + sramBump addr)

/-- LD through Z with post-increment. -/
def execLDZii (cfg : DeviceConfig) (op : Nat) (s : DeviceState) : DeviceState × Nat :=
  let d := (op >>> 4) &&& 0x1F
  let s0 := if d = 30 ∨ d = 31 then emit s .logCritical else s
  let addr := regZ s0 ||| (s0.rampz <<< 16)
  let s1 := setReg s0 d (getDataMem cfg s0 addr)
  let newZ := (regZ s1 + 1) % 65536
  let s2 := setReg16 s1 30 newZ
  let s3 := if newZ = 0 then { s2 with rampz := ((s2.rampz + 1) % 256) &&& cfg.rampMask } else s2
  (pcInc s3 1, 1 + sramBump addr)

/-- LD through Z with pre-decrement. -/
def execLDZiii (cfg : DeviceConfig) (op : Nat) (s : DeviceState) : DeviceState × Nat :=
  let d := (op >>> 4) &&& 0x1F
  let s0 := if d = 30 ∨ d = 31 then emit s .logCritical else s
  let newZ := (regZ s0 + 65535) % 65536
  let s1 := setReg16 s0 30 newZ
  let s2 := if newZ = 65535 then { s1 with rampz := ((s1.rampz + 255) % 256) &&& cfg.rampMask } else s1
  let addr := newZ ||| (s2.rampz <<< 16)
  (pcInc (setReg s2 d (getDataMem cfg s2 addr)) 1, 2 + sramBump addr)

/-- STS (16-bit direct); no extra SRAM cycle in the source. -/
def execSTS (cfg : DeviceConfig) (op : Nat) (s : DeviceState) : DeviceState × Nat :=
  let d := (op >>> 4) &&& 0x1F
  let k := flashW s (s.pc + 1)
  (pcInc (setDataMem cfg s (k ||| (s.rampd <<< 16)) (reg8 s d)) 2, 2)

/-- ST through X, plain form. -/
def execSTXi (cfg : DeviceConfig) (op : Nat) (s : DeviceState) : DeviceState × Nat :=
  let d := (op >>> 4) &&& 0x1F
  let addr := regX s ||| (s.rampx <<< 16)
  (pcInc (setDataMem cfg s addr (reg8 s d)) 1, 1)

/-- ST through X with post-increment. -/
def execSTXii (cfg : DeviceConfig) (op : Nat) (s : DeviceState) : DeviceState × Nat :=
  let d := (op >>> 4) &&& 0x1F
  let s0 := if d = 26 ∨ d = 27 then emit s .logCritical else s
  let addr := regX s0 ||| (s0.rampx <<< 16)
  let s1 := setDataMem cfg s0 addr (reg8 s0 d)
  let newX := (regX s1 + 1) % 65536
  let s2 := setReg16 s1 26 newX
  let s3 := if newX = 0 then { s2 with rampx := ((s2.rampx + 1) % 256) &&& cfg.rampMask } else s2
  (pcInc s3 1, 1)

/-- ST through X with pre-decrement. -/
def execSTXiii (cfg : DeviceConfig) (op : Nat) (s : DeviceState) : DeviceState × Nat :=
  let d := (op >>> 4) &&& 0x1F
  let s0 := if d = 26 ∨ d = 27 then emit s .logCritical else s
  let newX := (regX s0 + 65535) % 65536
  let s1 := setReg16 s0 26 newX
  let s2 := if newX = 65535 then { s1 with rampx := ((s1.rampx + 255) % 256) &&& cfg.rampMask } else s1
  let addr := newX ||| (s2.rampx <<< 16)
  (pcInc (setDataMem cfg s2 addr (reg8 s2 d)) 1, 2)

/-- ST/STD through Y with displacement. -/
def execSTDY (cfg : DeviceConfig) (op : Nat) (s : DeviceState) : DeviceState × Nat :=
  let d := (op >>> 4) &&& 0x1F
  let q := qOf op
  let addr := (regY s ||| (s.rampy <<< 16)) + q
  (pcInc (setDataMem cfg s addr (reg8 s d)) 1, if q ≠ 0 then 2 else 1)

/-- ST through Y with post-increment. -/
def execSTYii (cfg : DeviceConfig) (op : Nat) (s : DeviceState) : DeviceState × Nat :=
  let d := (op >>> 4) &&& 0x1F
  let s0 := if d = 28 ∨ d = 29 then emit s .logCritical else s
  let addr := regY s0 ||| (s0.rampy <<< 16)
  let s1 := setDataMem cfg s0 addr (reg8 s0 d)
  let newY := (regY s1 + 1) % 65536
  let s2 := setReg16 s1 28 newY
  let s3 := if newY = 0 then { s2 with rampy := ((s2.rampy + 1) % 256) &&& cfg.rampMask } else s2
  (pcInc s3 1, 1)

/-- ST through Y with pre-decrement. -/
def execSTYiii (cfg : DeviceConfig) (op : Nat) (s : DeviceState) : DeviceState × Nat :=
  let d := (op >>> 4) &&& 0x1F
  let s0 := if d = 28 ∨ d = 29 then emit s .logCritical else s
  let newY := (regY s0 + 65535) % 65536
  let s1 := setReg16 s0 28 newY
  let s2 := if newY = 65535 then { s1 with rampy := ((s1.rampy + 255) % 256) &&& cfg.rampMask } else s1
  let addr := newY ||| (s2.rampy <<< 16)
  (pcInc (setDataMem cfg s2 addr (reg8 s2 d)) 1, 2)

/-- ST/STD through Z with displacement. -/
def execSTDZ (cfg : DeviceConfig) (op : Nat) (s : DeviceState) : DeviceState × Nat :=
  let d := (op >>> 4) &&& 0x1F
  let q := qOf op
  let addr := (regZ s ||| (s.rampz <<< 16)) + q
  (pcInc (setDataMem cfg s addr (reg8 s d)) 1, if q ≠ 0 then 2 else 1)

/-- ST through Z with post-increment. -/
def execSTZii (cfg : DeviceConfig) (op : Nat) (s : DeviceState) : DeviceState × Nat :=
  let d := (op >>> 4) &&& 0x1F
  let s0 := if d = 30 ∨ d = 31 then emit s .logCritical else s
  let addr := regZ s0 ||| (s0.rampz <<< 16)
  let s1 := setDataMem cfg s0 addr (reg8 s0 d)
  let newZ := (regZ s1 + 1) % 65536
  let s2 := setReg16 s1 30 newZ
  let s3 := if newZ = 0 then { s2 with rampz := ((s2.rampz + 1) % 256) &&& cfg.rampMask } else s2
  (pcInc s3 1, 1)

/-- ST through Z with pre-decrement. -/
def execSTZiii (cfg : DeviceConfig) (op : Nat) (s : DeviceState) : DeviceState × Nat :=
  let d := (op >>> 4) &&& 0x1F
  let s0 := if d = 30 ∨ d = 31 then emit s .logCritical else s
  let newZ := (regZ s0 + 65535) % 65536
  let s1 := setReg16 s0 30 newZ
  let s2 := if newZ = 65535 then { s1 with rampz := ((s1.rampz + 255) % 256) &&& cfg.rampMask } else s1
  let addr := newZ ||| (s2.rampz <<< 16)
  (pcInc (setDataMem cfg s2 addr (reg8 s2 d)) 1, 2)

/-- Byte selection of the program-memory loads: high byte when Z bit 0
is set. -/
def lpmByte (z v : Nat) : Nat := if z &&& 1 = 1 then (v >>> 8) &&& 0xFF else v &&& 0xFF

/-- LPM r0 form. -/
def execLPMi (s : DeviceState) : DeviceState × Nat :=
  let z := regZ s
  (pcInc (setReg s 0 (lpmByte z (flashW s (z >>> 1)))) 1, 3)

/-- LPM register forms, optional post-increment of Z (no RAMPZ update
in the source for these forms). -/
def execLPMii (op : Nat) (s : DeviceState) : DeviceState × Nat :=
  let d := (op >>> 4) &&& 0x1F
  let z := regZ s
  let s1 := setReg s d (lpmByte z (flashW s (z >>> 1)))
  let s2 := if op &&& 1 = 1 then setReg16 s1 30 ((regZ s1 + 1) % 65536) else s1
  (pcInc s2 1, 3)

/-- ELPM r0 form; the source widens Z with rampz shifted by 7. -/
def execELPMi (s : DeviceState) : DeviceState × Nat :=
  let z := regZ s
  (pcInc (setReg s 0 (lpmByte z (flashW s ((z >>> 1) ||| (s.rampz <<< 7))))) 1, 3)

/-- ELPM register forms with optional post-increment and RAMPZ carry. -/
def execELPMii (cfg : DeviceConfig) (op : Nat) (s : DeviceState) : DeviceState × Nat :=
  let d := (op >>> 4) &&& 0x1F
  let z := regZ s
  let s1 := setReg s d (lpmByte z (flashW s ((z >>> 1) ||| (s.rampz <<< 7))))
  let s2 :=
    if op &&& 1 = 1 then
      let newZ := (regZ s1 + 1) % 65536
      let sz := setReg16 s1 30 newZ
      if newZ = 0 then { sz with rampz := ((sz.rampz + 1) % 256) &&& cfg.rampMask } else sz
    else s1
  (pcInc s2 1, 3)

/-- SPM and SPM#2 (stubs in the source). -/
def execSPM (s : DeviceState) : DeviceState × Nat := (pcInc s 1, 1)

/-- XCH. -/
def execXCH (cfg : DeviceConfig) (op : Nat) (s : DeviceState) : DeviceState × Nat :=
  let d := (op >>> 4) &&& 0x1F
  let Rd := reg8 s d
  let z := getDataMem cfg s (regZ s)
  let s1 := setDataMem cfg s (regZ s) Rd
  (pcInc (setReg s1 d z) 1, 1)

/-- LAC; the source does not write the register back. -/
def execLAC (cfg : DeviceConfig) (op : Nat) (s : DeviceState) : DeviceState × Nat :=
  let d := (op >>> 4) &&& 0x1F
  let Rd := reg8 s d
  let z := getDataMem cfg s (regZ s)
  (pcInc (setDataMem cfg s (regZ s) (Rd &&& c8 z)) 1, 1)

/-- LAS. -/
def execLAS (cfg : DeviceConfig) (op : Nat) (s : DeviceState) : DeviceState × Nat :=
  let d := (op >>> 4) &&& 0x1F
  let Rd := reg8 s d
  let z := getDataMem cfg s (regZ s)
  let s1 := setDataMem cfg s (regZ s) (Rd ||| z)
  (pcInc (setReg s1 d z) 1, 1)

/-- LAT. -/
def execLAT (cfg : DeviceConfig) (op : Nat) (s : DeviceState) : DeviceState × Nat :=
  let d := (op >>> 4) &&& 0x1F
  let Rd := reg8 s d
  let z := getDataMem cfg s (regZ s)
  let s1 := setDataMem cfg s (regZ s) (Rd ^^^ z)
  (pcInc (setReg s1 d z) 1, 1)

/-- JMP (two-word absolute). -/
def execJMP (op : Nat) (s : DeviceState) : DeviceState × Nat :=
  let op2 := flashW s (s.pc + 1)
  let k := ((((op >>> 3) &&& 0x3E) ||| (op &&& 1)) <<< 16) ||| op2
  ({ s with pc := k }, 3)

/-- RJMP. -/
def execRJMP (op : Nat) (s : DeviceState) : DeviceState × Nat :=
  let k := signExt 12 (op &&& 0xFFF)
  ({ s with pc := pcAdd s.pc (k + 1) }, 2)

/-- IJMP. -/
def execIJMP (s : DeviceState) : DeviceState × Nat := ({ s with pc := regZ s }, 2)

/-- EIJMP; unavailable below 128 KiB flash, logged critically. -/
def execEIJMP (cfg : DeviceConfig) (s : DeviceState) : DeviceState × Nat :=
  if cfg.flashSize ≤ 0x20000 then (pcInc (emit s .logCritical) 1, 1)
  else ({ s with pc := regZ s ||| (s.eind <<< 16) }, 2)

/-- BRBC and BRBS with all their aliases; the branch sense comes from
opcode bit 10. -/
def execBRB (op : Nat) (s : DeviceState) : DeviceState × Nat :=
  let b := op &&& 7
  let k := signExt 7 ((op >>> 3) &&& 0x7F)
  if ((s.sreg >>> b) ^^^ (op >>> 10)) &&& 1 ≠ 0 then
    ({ s with pc := pcAdd s.pc (k + 1) }, 2)
  else (pcInc s 1, 1)

/-- SBRC and SBRS; on a skip the source charges 3 cycles in both the
one-word and two-word cases. -/
def execSBRX (op : Nat) (s : DeviceState) : DeviceState × Nat :=
  let r := (op >>> 4) &&& 0x1F
  let b := op &&& 7
  if ((reg8 s r >>> b) ^^^ (op >>> 9)) &&& 1 = 0 then
    if opcode_is_32b (flashW s (s.pc + 1)) then (pcInc s 3, 3) else (pcInc s 2, 3)
  else (pcInc s 1, 1)

/-- SBIC and SBIS. -/
def execSBIX (op : Nat) (s : DeviceState) : DeviceState × Nat :=
  let a := (op >>> 3) &&& 0x1F
  let b := op &&& 7
  if ((getIoMem s a >>> b) ^^^ (op >>> 9)) &&& 1 = 0 then
    if opcode_is_32b (flashW s (s.pc + 1)) then (pcInc s 3, 3) else (pcInc s 2, 2)
  else (pcInc s 1, 1)

/-- CPSE. -/
def execCPSE (op : Nat) (s : DeviceState) : DeviceState × Nat :=
  let d := (op >>> 4) &&& 0x1F
  if reg8 s d = reg8 s (rOf op) then
    if opcode_is_32b (flashW s (s.pc + 1)) then (pcInc s 3, 3) else (pcInc s 2, 2)
  else (pcInc s 1, 1)

/-- Push of a return PC: 2 bytes below 128 KiB flash, else 3, with the
matching SP decrement (16-bit wrapping). -/
def pushPC (cfg : DeviceConfig) (s : DeviceState) (v : Nat) : DeviceState :=
  if cfg.flashSize ≤ 0x20000 then
    { s with sram := stackSet16 s.sram s.sp v, sp := (s.sp + 65534) % 65536 }
  else
    { s with sram := stackSet24 s.sram s.sp v, sp := (s.sp + 65533) % 65536 }

/-- CALL (two-word absolute). -/
def execCALL (cfg : DeviceConfig) (op : Nat) (s : DeviceState) : DeviceState × Nat :=
  let op2 := flashW s (s.pc + 1)
  let k := ((((op >>> 3) &&& 0x3E) ||| (op &&& 1)) <<< 16) ||| op2
  let s1 := pushPC cfg s (s.pc + 2)
  ({ s1 with pc := k }, if cfg.flashSize ≤ 0x20000 then 3 else 4)

/-- RCALL. -/
def execRCALL (cfg : DeviceConfig) (op : Nat) (s : DeviceState) : DeviceState × Nat :=
  let k := signExt 12 (op &&& 0xFFF)
  let s1 := pushPC cfg s (s.pc + 1)
  ({ s1 with pc := pcAdd s1.pc (k + 1) }, if cfg.flashSize ≤ 0x20000 then 2 else 3)

/-- ICALL. -/
def execICALL (cfg : DeviceConfig) (s : DeviceState) : DeviceState × Nat :=
  let s1 := pushPC cfg s (s.pc + 1)
  ({ s1 with pc := regZ s1 }, if cfg.flashSize ≤ 0x20000 then 2 else 3)

/-- EICALL; unavailable below 128 KiB flash, logged critically. -/
def execEICALL (cfg : DeviceConfig) (s : DeviceState) : DeviceState × Nat :=
  if cfg.flashSize ≤ 0x20000 then (pcInc (emit s .logCritical) 1, 1)
  else
    let s1 := { s with sram := stackSet24 s.sram s.sp (s.pc + 1), sp := (s.sp + 65533) % 65536 }
    ({ s1 with pc := regZ s1 ||| (s1.eind <<< 16) }, 3)

/-- RET. -/
def execRET (cfg : DeviceConfig) (s : DeviceState) : DeviceState × Nat :=
  if cfg.flashSize ≤ 0x20000 then
    let sp1 := (s.sp + 2) % 65536
    ({ s with sp := sp1, pc := stackGet16 s.sram sp1 }, 2)
  else
    let sp1 := (s.sp + 3) % 65536
    ({ s with sp := sp1, pc := stackGet24 s.sram sp1 }, 3)

/-- RETI: clear the highest active PMIC status bit (logging critically
when none is set), then pop the return PC; the I flag is not touched
(XMEGA deviation noted in the source). -/
def execRETI (cfg : DeviceConfig) (s : DeviceState) : DeviceState × Nat :=
  let s1 :=
    if bitOf s.pmicStatus 3 then { s with pmicStatus := s.pmicStatus &&& 0xF7 }
    else if bitOf s.pmicStatus 2 then { s with pmicStatus := s.pmicStatus &&& 0xFB }
    else if bitOf s.pmicStatus 1 then { s with pmicStatus := s.pmicStatus &&& 0xFD }
    else if bitOf s.pmicStatus 0 then { s with pmicStatus := s.pmicStatus &&& 0xFE }
    else emit s .logCritical
  if cfg.flashSize ≤ 0x20000 then
    let sp1 := (s1.sp + 2) % 65536
    ({ s1 with sp := sp1, pc := stackGet16 s1.sram sp1 }, 2)
  else
    let sp1 := (s1.sp + 3) % 65536
    ({ s1 with sp := sp1, pc := stackGet24 s1.sram sp1 }, 3)

/-- POP: SP is incremented, then the byte at the new SP is read. -/
def execPOP (op : Nat) (s : DeviceState) : DeviceState × Nat :=
  let d := (op >>> 4) &&& 0x1F
  let sp1 := (s.sp + 1) % 65536
  let s1 := { s with sp := sp1 }
  (pcInc (setReg s1 d (s1.sram (sp1 - 0x2000) % 256)) 1, 1)

/-- PUSH: the byte is written at SP, then SP is decremented. -/
def execPUSH (op : Nat) (s : DeviceState) : DeviceState × Nat :=
  let r := (op >>> 4) &&& 0x1F
  let s1 := { s with sram := fun i => if i = s.sp - 0x2000 then reg8 s r else s.sram i }
  (pcInc { s1 with sp := (s1.sp + 65535) % 65536 } 1, 1)

/-- IN. -/
def execIN (op : Nat) (s : DeviceState) : DeviceState × Nat :=
  let d := (op >>> 4) &&& 0x1F
  let a := (op &&& 0xF) ||| ((op >>> 5) &&& 0x30)
  (pcInc (setReg s d (getIoMem s a)) 1, 1)

/-- OUT. -/
def execOUT (op : Nat) (s : DeviceState) : DeviceState × Nat :=
  let r := (op >>> 4) &&& 0x1F
  let a := (op &&& 0xF) ||| ((op >>> 5) &&& 0x30)
  (pcInc (setIoMem s a (reg8 s r)) 1, 1)

/-- WDR (stub). -/
def execWDR (s : DeviceState) : DeviceState × Nat := (pcInc s 1, 1)

/-- SLEEP (stub). -/
def execSLEEP (s : DeviceState) : DeviceState × Nat := (pcInc s 1, 1)

/-- BREAK: set the sticky breaked flag. -/
def execBREAK (s : DeviceState) : DeviceState × Nat :=
  (pcInc { s with breaked := true } 1, 1)

/-- DES (stub). -/
def execDES (s : DeviceState) : DeviceState × Nat := (pcInc s 1, 1)

/-- Unknown opcode: critical log, advance one word, one cycle. -/
def execUNK (s : DeviceState) : DeviceState × Nat := (pcInc (emit s .logCritical) 1, 1)

/-- Execution of a fetched opcode: the decode chain of
Device::executeNextInstruction routed to the per-branch bodies. -/
def execOpcode (cfg : DeviceConfig) (op : Nat) (s : DeviceState) : DeviceState × Nat :=
  match dispatchTag op with
  | .nop => execNOP s
  | .bset => execBSET op s
  | .bclr => execBCLR op s
  | .sbi => execSBI op s
  | .cbi => execCBI op s
  | .com => execCOM op s
  | .neg => execNEG op s
  | .swap => execSWAP op s
  | .inc => execINC op s
  | .asr => execASR op s
  | .lsr => execLSR op s
  | .ror => execROR op s
  | .dec => execDEC op s
  | .cp => execCP op s
  | .cpc => execCPC op s
  | .add => execADD op s
  | .adc => execADC op s
  | .sub => execSUB op s
  | .sbc => execSBC op s
  | .mul => execMUL op s
  | .muls => execMULS op s
  | .mulsu => execMULSU op s
  | .fmul => execFMUL op s
  | .fmuls => execFMULS op s
  | .fmulsu => execFMULSU op s
  | .andr => execAND op s
  | .eorr => execEOR op s
  | .orr => execOR op s
  | .movr => execMOV op s
  | .cpi => execCPI op s
  | .subi => execSUBI op s
  | .sbci => execSBCI op s
  | .andi => execANDI op s
  | .ori => execORI op s
  | .movw => execMOVW op s
  | .adiw => execADIW op s
  | .sbiw => execSBIW op s
  | .bld => execBLD op s
  | .bst => execBST op s
  | .ldi => execLDI op s
  | .lds => execLDS cfg op s
  | .ldxi => execLDXi cfg op s
  | .ldxii => execLDXii cfg op s
  | .ldxiii => execLDXiii cfg op s
  | .lddy => execLDDY cfg op s
  | .ldyii => execLDYii cfg op s
  | .ldyiii => execLDYiii cfg op s
  | .lddz => execLDDZ cfg op s
  | .ldzii => execLDZii cfg op s
  | .ldziii => execLDZiii cfg op s
  | .sts => execSTS cfg op s
  | .stxi => execSTXi cfg op s
  | .stxii => execSTXii cfg op s
  | .stxiii => execSTXiii cfg op s
  | .stdy => execSTDY cfg op s
  | .styii => execSTYii cfg op s
  | .styiii => execSTYiii cfg op s
  | .stdz => execSTDZ cfg op s
  | .stzii => execSTZii cfg op s
  | .stziii => execSTZiii cfg op s
  | .lpmi => execLPMi s
  | .lpmii => execLPMii op s
  | .elpmi => execELPMi s
  | .elpmii => execELPMii cfg op s
  | .spm => execSPM s
  | .xch => execXCH cfg op s
  | .lac => execLAC cfg op s
  | .las => execLAS cfg op s
  | .lat => execLAT cfg op s
  | .jmp => execJMP op s
  | .rjmp => execRJMP op s
  | .ijmp => execIJMP s
  | .eijmp => execEIJMP cfg s
  | .brb => execBRB op s
  | .sbrx => execSBRX op s
  | .sbix => execSBIX op s
  | .cpse => execCPSE op s
  | .call => execCALL cfg op s
  | .rcall => execRCALL cfg op s
  | .icall => execICALL cfg s
  | .eicall => execEICALL cfg s
  | .ret => execRET cfg s
  | .reti => execRETI cfg s
  | .pop => execPOP op s
  | .push => execPUSH op s
  | .ain => execIN op s
  | .aout => execOUT op s
  | .wdr => execWDR s
  | .slp => execSLEEP s
  | .brk => execBREAK s
  | .des => execDES s
  | .unknown => execUNK s

/-- Device::executeNextInstruction: fetch the opcode at PC, decode and
execute, returning the cycle count. -/
def executeNextInstruction (cfg : DeviceConfig) (s : DeviceState) : DeviceState × Nat :=
  execOpcode cfg (flashW s s.pc) s

/-- Result of one CPU step: the new state plus whether an interrupt was
acknowledged and whether an instruction was executed in this step. -/
structure StepOut where
  state : DeviceState
  dispatched : Bool
  executed : Bool

/-- Device::stepCPU (device.cpp): clear breaked, attempt interrupt
dispatch when no cycle debt remains, the previous instruction has
retired, I is set and CCP is inactive; then run the instruction-fetch
loop while the debt is zero, and consume one cycle.  The source's while
loop runs at most once because every opcode body returns at least one
cycle (theorem execOpcode_cycles_pos below), so it is rendered as a
single conditional execution. -/
def stepCPU (cfg : DeviceConfig) (s : DeviceState) : StepOut :=
  let s0 : DeviceState := { s with breaked := false }
  let disp :=
    if s0.instructionCycles = 0 ∧ s0.interruptWaitInstruction = false ∧ sregI s0 = true ∧ s0.ccp = 0 then
      let pr := processPendingInterrupts cfg s0
      if pr.1 then (true, { pr.2 with instructionCycles := 5, interruptWaitInstruction := true })
      else (false, pr.2)
    else (false, s0)
  let s1 := disp.2
  let ex :=
    if s1.instructionCycles = 0 then
      let r := executeNextInstruction cfg s1
      (true, { r.1 with instructionCycles := r.2, interruptWaitInstruction := false })
    else (false, s1)
  let s2 := ex.2
  { state := { s2 with instructionCycles := s2.instructionCycles - 1 },
    dispatched := disp.1, executed := ex.1 }

/-- Iterated CPU stepping with an environment transformation applied
between steps (other scheduler events, I/O from outside, interrupt
posting by blocks). -/
def cpuTrace (cfg : DeviceConfig) (env : Nat → DeviceState → DeviceState)
    (s : DeviceState) : Nat → DeviceState
  | 0 => s
  | n + 1 => env n (stepCPU cfg (cpuTrace cfg env s n)).state

/-- Whether step n of the trace acknowledged an interrupt. -/
def dispatchedAt (cfg : DeviceConfig) (env : Nat → DeviceState → DeviceState)
    (s : DeviceState) (n : Nat) : Bool :=
  (stepCPU cfg (cpuTrace cfg env s n)).dispatched

/-- Whether step n of the trace executed (retired) an instruction. -/
def executedAt (cfg : DeviceConfig) (env : Nat → DeviceState → DeviceState)
    (s : DeviceState) (n : Nat) : Bool :=
  (stepCPU cfg (cpuTrace cfg env s n)).executed

/-- Clock domains (ClockType of clock.h; the enumeration is given by
the spec's external interface section). -/
inductive ClockType
  | sys | cpu | per | per2 | per4 | asy
deriving DecidableEq, Repr

/-- Device::getClockScale (device.cpp), parameterised by the three CLK
prescaler divisors. -/
def getClockScale (pa pb pc : Nat) : ClockType → Nat
  | .sys => 1
  | .cpu => pa * pb * pc
  | .per => pa * pb * pc
  | .per2 => pa * pb
  | .per4 => pa
  | .asy => 1

/-- A scheduled clock event.  The ClockEvent record of clock.h is not
in the sources; its fields here follow the spec's scheduler section:
clock domain, priority, absolute SYS tick, scale at last rescaling,
and an insertion sequence number realising the spec's stable
insertion-order tiebreak.  The callback is abstracted as the list of
its successive return values (a callback must not touch the queue). -/
structure ClockEvent where
  clock : ClockType
  priority : Nat
  tick : Nat
  scale : Nat
  seq : Nat
  script : List Nat
deriving DecidableEq, Repr

/-- Comparator key order of the scheduler heap, modelled from the
spec: tick ascending, then priority ascending, then insertion order. -/
def evLe (a b : ClockEvent) : Bool :=
  a.tick < b.tick ∨ (a.tick = b.tick ∧
    (a.priority < b.priority ∨ (a.priority = b.priority ∧ a.seq ≤ b.seq)))

/-- Strict version of the comparator order, as a proposition. -/
def evLt (a b : ClockEvent) : Prop :=
  a.tick < b.tick ∨ (a.tick = b.tick ∧
    (a.priority < b.priority ∨ (a.priority = b.priority ∧ a.seq < b.seq)))

instance : DecidablePred fun p : ClockEvent × ClockEvent => evLt p.1 p.2 := by
  intro p; unfold evLt; infer_instance

/-- Heap-top selection: the minimum of the queue under the comparator
(std heap operations return the comparator minimum at the front). -/
def selMin : List ClockEvent → Option (ClockEvent × List ClockEvent)
  | [] => none
  | e :: rest =>
    match selMin rest with
    | none => some (e, [])
    | some (m, others) => if evLe e m then some (e, rest) else some (m, e :: others)

/-- Device::schedule (device.cpp): tick is the next multiple of the
scale after adding the requested domain ticks. -/
def schedule (curTick scale ticks priority seq : Nat) (script : List Nat) (clock : ClockType) : ClockEvent :=
  { clock := clock, priority := priority, tick := (curTick / scale + ticks) * scale,
    scale := scale, seq := seq, script := script }

/-- A record of one event firing within a step: the tick it fired at,
its priority and its insertion sequence number. -/
structure Fire where
  tick : Nat
  priority : Nat
  seq : Nat
deriving DecidableEq, Repr

/-- The firing loop body of Device::step: pop the comparator minimum
while its tick is due, run the callback (the head of the script), and
either reschedule at tick + next * scale or drop the event.  Recursion
is bounded by fuel; the source loops until the head event is beyond
the current tick. -/
def stepRun (fuel cur : Nat) (q : List ClockEvent) : List ClockEvent × List Fire :=
  match fuel with
  | 0 => (q, [])
  | fuel' + 1 =>
    match selMin q with
    | none => (q, [])
    | some (e, rest) =>
      if cur < e.tick then (q, [])
      else
        let f : Fire := { tick := e.tick, priority := e.priority, seq := e.seq }
        let q1 :=
          match e.script with
          | [] => rest
          | n :: sc =>
            if n = 0 then rest
            else { e with tick := e.tick + n * e.scale, script := sc } :: rest
        let r := stepRun fuel' cur q1
        (r.1, f :: r.2)

/-- Device::step (device.cpp): advance the SYS tick to the heap top's
tick, then drain all due events. -/
def deviceStep (fuel : Nat) (q : List ClockEvent) : List ClockEvent × List Fire :=
  match selMin q with
  | none => (q, [])
  | some (e, _) => stepRun fuel e.tick q

/-- Device::onClockConfigChange (device.cpp), effect on a single
event: if the domain's scale changed, re-express the firing tick in
the new scale preserving the remaining domain ticks (ceiling
division), and store the new scale. -/
def rescaleEvent (cur : Nat) (scaleOf : ClockType → Nat) (e : ClockEvent) : ClockEvent :=
  if e.scale = scaleOf e.clock then e
  else { e with tick := cur + (e.tick - cur + e.scale - 1) / e.scale * scaleOf e.clock, scale := scaleOf e.clock }

/-- Device::onClockConfigChange over the whole queue (the heap rebuild
does not change the set of events). -/
def onClockConfigChange (cur : Nat) (scaleOf : ClockType → Nat) (q : List ClockEvent) : List ClockEvent :=
  q.map (rescaleEvent cur scaleOf)

end Meg

namespace MegClk

/-- State of the CLK block (block/clk.cpp).  The PSCTRL bitfield
positions (PSADIV bits 6..2, PSBCDIV bits 1..0) and the SCLKSEL and
RTCSRC enumeration values follow the XMEGA register layout; clk.h is
not in the sources. -/
structure ClkState where
  sclk : Nat
  psctrl : Nat
  prescalerA : Nat
  prescalerB : Nat
  prescalerC : Nat
  locked : Bool
  rtcen : Bool
  rtcsrc : Nat
deriving DecidableEq, Repr

/-- CLK::setIo (block/clk.cpp): the I/O write path of the CLK block.
ccp is the device CCP state byte (CCP_IOREG is bit 0); writes to CTRL
and PSCTRL are guarded by the lock, the lock register can only be set
within a CCP window and can never be cleared by a write. -/
def clkWrite (c : ClkState) (addr v ccp : Nat) : ClkState :=
  if addr = 0 ∧ c.locked = false then
    let vsclk := v &&& 0x7
    if 4 < vsclk then c else { c with sclk := vsclk }
  else if addr = 1 ∧ c.locked = false then
    let vdata := v &&& 0x7F
    let psadiv := (vdata >>> 2) &&& 0x1F
    let psbcdiv := vdata &&& 0x3
    let pb := if psbcdiv &&& 2 ≠ 0 then 1 <<< (4 - psbcdiv) else 1
    if 9 < psadiv then c
    else
      { c with psctrl := vdata, prescalerA := 1 <<< psadiv, prescalerB := pb, prescalerC := 1 <<< (psbcdiv &&& 1) }
  else if addr = 2 then
    if c.locked = false ∧ v ≠ 0 then
      if ccp &&& 1 ≠ 0 then { c with locked := true } else c
    else c
  else if addr = 3 then
    let c1 := { c with rtcen := v &&& 1 ≠ 0 }
    let vsrc := (v >>> 1) &&& 7
    if vsrc ≤ 2 ∨ vsrc = 5 then { c1 with rtcsrc := vsrc } else c1
  else c

/-- CLK::reset (block/clk.cpp). -/
def clkReset : ClkState :=
  { sclk := 0, psctrl := 0, prescalerA := 1, prescalerB := 1, prescalerC := 1,
    locked := false, rtcen := false, rtcsrc := 0 }

end MegClk

namespace Meg

/-- A concrete device configuration used by the closed witness and
counterexample statements: 128 KiB flash (2-byte return PCs), 8 KiB
boot section, 16 KiB SRAM, no external SRAM. -/
def baseCfg : DeviceConfig :=
  { flashSize := 0x20000, flashBootStart := 0x1E000, memEepromSize := 0x1000,
    memSramSize := 0x4000, memExsramStart := 0x6000, memExsramSize := 0,
    rampMask := 0, eindMask := 0, ivBase := fun _ => 0 }

/-- A concrete base device state for witnesses: everything zeroed, SP
inside SRAM. -/
def base : DeviceState :=
  { reg := fun _ => 0, pc := 0, sp := 0x2100, sreg := 0, rampd := 0, rampx := 0,
    rampy := 0, rampz := 0, eind := 0, sram := fun _ => 0, flash := fun _ => 0,
    clkSysTick := 0, pmicStatus := 0, pmicHilvlen := false, pmicMedlvlen := false,
    pmicLolvlen := false, pmicIvsel := false, pendLo := ∅, pendMed := ∅,
    pendHi := ∅, pendNmi := ∅, instructionCycles := 0,
    interruptWaitInstruction := false, breaked := false, io := fun _ => 0,
    ccp := 0, events := [] }

end Meg

open Meg MegClk

/-- C10: once the CLK LOCK flag is set, any I/O write leaves sclk,
psctrl and all three prescaler divisors unchanged and cannot clear the
flag; the flag can only become set while the CCP I/O-register window
is active (bit CCP_IOREG of the CCP state); only CLK::reset clears
it. -/
theorem c10_clk_lock (c : ClkState) (addr v ccp : Nat) (hl : c.locked = true) :
    ((clkWrite c addr v ccp).sclk = c.sclk ∧
     (clkWrite c addr v ccp).psctrl = c.psctrl ∧
     (clkWrite c addr v ccp).prescalerA = c.prescalerA ∧
     (clkWrite c addr v ccp).prescalerB = c.prescalerB ∧
     (clkWrite c addr v ccp).prescalerC = c.prescalerC ∧
     (clkWrite c addr v ccp).locked = true) ∧
    (∀ c2 : ClkState, ∀ a2 v2 p2 : Nat, (clkWrite c2 a2 v2 p2).locked = true →
      c2.locked = true ∨ p2 &&& 1 ≠ 0) ∧
    clkReset.locked = false := by
  refine ⟨?_, ?_, rfl⟩
  · unfold clkWrite
    split_ifs <;> simp_all <;> split <;> simp_all
  · intro c2 a2 v2 p2 h
    unfold clkWrite at h
    split_ifs at h <;> simp_all <;> (try split at h) <;> simp_all

/-- Closed witness for c10_clk_lock at a concrete locked state. -/
theorem c10_clk_lock_witness :
    ((clkWrite { clkReset with locked := true } 0 5 0).sclk = clkReset.sclk ∧
     (clkWrite { clkReset with locked := true } 0 5 0).psctrl = clkReset.psctrl ∧
     (clkWrite { clkReset with locked := true } 0 5 0).prescalerA = clkReset.prescalerA ∧
     (clkWrite { clkReset with locked := true } 0 5 0).prescalerB = clkReset.prescalerB ∧
     (clkWrite { clkReset with locked := true } 0 5 0).prescalerC = clkReset.prescalerC ∧
     (clkWrite { clkReset with locked := true } 0 5 0).locked = true) ∧
    (∀ c2 : ClkState, ∀ a2 v2 p2 : Nat, (clkWrite c2 a2 v2 p2).locked = true →
      c2.locked = true ∨ p2 &&& 1 ≠ 0) ∧
    clkReset.locked = false :=
  c10_clk_lock { clkReset with locked := true } 0 5 0 rfl

/-- C4: onClockConfigChange keeps every live event in the queue, sets
its tick to cur + dt * newScale with dt the ceiling division of the
remaining SYS ticks by the old scale (which equals the exact quotient
under the stated divisibility precondition), stores the new scale, and
preserves the number of domain ticks remaining until firing. -/
theorem c4_rescale_preserves (cur : Nat) (scaleOf : ClockType → Nat)
    (q : List ClockEvent) (e : ClockEvent) (hq : e ∈ q)
    (hle : cur ≤ e.tick) (hdvd : e.scale ∣ (e.tick - cur))
    (hpos : 0 < e.scale) (hpos2 : 0 < scaleOf e.clock) :
    rescaleEvent cur scaleOf e ∈ onClockConfigChange cur scaleOf q ∧
    (e.tick - cur + e.scale - 1) / e.scale = (e.tick - cur) / e.scale ∧
    (rescaleEvent cur scaleOf e).tick
      = cur + (e.tick - cur) / e.scale * scaleOf e.clock ∧
    (rescaleEvent cur scaleOf e).scale = scaleOf e.clock ∧
    ((rescaleEvent cur scaleOf e).tick - cur) / (rescaleEvent cur scaleOf e).scale
      = (e.tick - cur) / e.scale := by
  obtain ⟨k, hk⟩ := hdvd
  have hfloor : (e.tick - cur) / e.scale = k := by
    rw [hk, Nat.mul_div_cancel_left _ hpos]
  have hceil : (e.tick - cur + e.scale - 1) / e.scale = (e.tick - cur) / e.scale := by
    rw [hk]
    rcases Nat.eq_zero_or_pos k with hk0 | hk0
    · subst hk0
      rw [Nat.mul_zero, Nat.zero_add, Nat.zero_div, Nat.div_eq_of_lt (by omega)]
    · have h1 : e.scale * k + e.scale - 1 = (e.scale - 1) + e.scale * k := by
        have : 1 ≤ e.scale * k := Nat.one_le_iff_ne_zero.mpr (by positivity)
        omega
      rw [h1, Nat.add_mul_div_left _ _ hpos, Nat.div_eq_of_lt (by omega),
        Nat.zero_add, Nat.mul_div_cancel_left _ hpos]
  refine ⟨List.mem_map_of_mem _ hq, hceil, ?_, ?_, ?_⟩
  · unfold rescaleEvent
    split_ifs with hsc
    · rw [hfloor, ← hsc, Nat.mul_comm]
      have : e.tick - cur = e.scale * k := hk
      omega
    · simp only [hceil]
  · unfold rescaleEvent
    split_ifs with hsc
    · exact hsc
    · rfl
  · unfold rescaleEvent
    split_ifs with hsc
    · rw [hsc]
    · simp only [hceil, hfloor]
      rw [Nat.add_sub_cancel_left, Nat.mul_div_cancel _ hpos2]

/-- Closed witness for c4_rescale_preserves: an event on the PER
domain, 16 SYS ticks out at scale 8, rescaled to scale 4, fires 8 SYS
ticks out (two remaining domain ticks), matching the spec's clock
rescale scenario. -/
theorem c4_rescale_preserves_witness :
    rescaleEvent 16 (getClockScale 1 2 2)
        { clock := .per, priority := 0, tick := 32, scale := 8, seq := 0, script := [] } ∈
      onClockConfigChange 16 (getClockScale 1 2 2)
        [{ clock := .per, priority := 0, tick := 32, scale := 8, seq := 0, script := [] }] ∧
    (32 - 16 + 8 - 1) / 8 = (32 - 16) / 8 ∧
    (rescaleEvent 16 (getClockScale 1 2 2)
        { clock := .per, priority := 0, tick := 32, scale := 8, seq := 0, script := [] }).tick
      = 16 + (32 - 16) / 8 * getClockScale 1 2 2 .per ∧
    (rescaleEvent 16 (getClockScale 1 2 2)
        { clock := .per, priority := 0, tick := 32, scale := 8, seq := 0, script := [] }).scale
      = getClockScale 1 2 2 .per ∧
    ((rescaleEvent 16 (getClockScale 1 2 2)
        { clock := .per, priority := 0, tick := 32, scale := 8, seq := 0, script := [] }).tick - 16)
        / (rescaleEvent 16 (getClockScale 1 2 2)
        { clock := .per, priority := 0, tick := 32, scale := 8, seq := 0, script := [] }).scale
      = (32 - 16) / 8 :=
  c4_rescale_preserves 16 (getClockScale 1 2 2) _ _ (List.mem_singleton.mpr rfl)
    (by decide) (by decide) (by decide) (by decide)

/-- C8: the AVR FMULSU encoding 0x0388 matches no decode arm (the
source's FMULSU guard repeats the FMULS guard, leaving the FMULSU arm
dead), so the instruction falls through to the unknown-opcode handler:
critical log, PC advanced one word, one cycle, registers and flags
untouched. -/
theorem c8_fmulsu_unreachable (cfg : DeviceConfig) (s : DeviceState)
    (hop : flashW s s.pc = 0x0388) :
    executeNextInstruction cfg s = execUNK s ∧
    (executeNextInstruction cfg s).1.reg = s.reg ∧
    (executeNextInstruction cfg s).1.sreg = s.sreg ∧
    (executeNextInstruction cfg s).1.pc = (s.pc + 1) % 4294967296 ∧
    (executeNextInstruction cfg s).2 = 1 ∧
    DevEvent.logCritical ∈ (executeNextInstruction cfg s).1.events := by
  have he : executeNextInstruction cfg s = execUNK s := by
    unfold executeNextInstruction
    rw [hop]
    rfl
  refine ⟨he, ?_, ?_, ?_, ?_, ?_⟩ <;> rw [he] <;> simp [execUNK, pcInc, emit]

/-- Concrete state whose first flash word is the FMULSU encoding, with
r16 holding 0x80 (so the AVR-manual semantics would give a nonzero
product in r1:r0). -/
def c8state : DeviceState :=
  { base with flash := fun i => if i = 0 then 0x0388 else 0, reg := fun i => if i = 16 then 0x80 else 0 }

/-- Closed witness for c8_fmulsu_unreachable: at c8state the opcode
0x0388 takes one cycle, logs critically and leaves r0 and r1 zero. -/
theorem c8_fmulsu_unreachable_witness :
    (executeNextInstruction baseCfg c8state).2 = 1 ∧
    DevEvent.logCritical ∈ (executeNextInstruction baseCfg c8state).1.events ∧
    (executeNextInstruction baseCfg c8state).1.reg = c8state.reg := by
  refine ⟨(c8_fmulsu_unreachable baseCfg c8state rfl).2.2.2.2.1,
    (c8_fmulsu_unreachable baseCfg c8state rfl).2.2.2.2.2,
    (c8_fmulsu_unreachable baseCfg c8state rfl).2.1⟩

/-- C6: RETI clears exactly the highest PMIC status bit currently set
(NMI, then HI, then MED, then LO), logs critically and clears nothing
when none is set, pops the return PC with the width and cycle count
selected by the 128 KiB flash boundary, and leaves SREG (hence the I
flag) untouched. -/
theorem c6_reti (cfg : DeviceConfig) (s : DeviceState)
    (hop : flashW s s.pc = 0x9518) :
    (executeNextInstruction cfg s).1.sreg = s.sreg ∧
    (cfg.flashSize ≤ 0x20000 →
      (executeNextInstruction cfg s).1.sp = (s.sp + 2) % 65536 ∧
      (executeNextInstruction cfg s).2 = 2 ∧
      (executeNextInstruction cfg s).1.pc = stackGet16 s.sram ((s.sp + 2) % 65536)) ∧
    (¬ cfg.flashSize ≤ 0x20000 →
      (executeNextInstruction cfg s).1.sp = (s.sp + 3) % 65536 ∧
      (executeNextInstruction cfg s).2 = 3 ∧
      (executeNextInstruction cfg s).1.pc = stackGet24 s.sram ((s.sp + 3) % 65536)) ∧
    (bitOf s.pmicStatus 3 = true →
      (executeNextInstruction cfg s).1.pmicStatus = s.pmicStatus &&& 0xF7) ∧
    (bitOf s.pmicStatus 3 = false → bitOf s.pmicStatus 2 = true →
      (executeNextInstruction cfg s).1.pmicStatus = s.pmicStatus &&& 0xFB) ∧
    (bitOf s.pmicStatus 3 = false → bitOf s.pmicStatus 2 = false →
      bitOf s.pmicStatus 1 = true →
      (executeNextInstruction cfg s).1.pmicStatus = s.pmicStatus &&& 0xFD) ∧
    (bitOf s.pmicStatus 3 = false → bitOf s.pmicStatus 2 = false →
      bitOf s.pmicStatus 1 = false → bitOf s.pmicStatus 0 = true →
      (executeNextInstruction cfg s).1.pmicStatus = s.pmicStatus &&& 0xFE) ∧
    (bitOf s.pmicStatus 3 = false → bitOf s.pmicStatus 2 = false →
      bitOf s.pmicStatus 1 = false → bitOf s.pmicStatus 0 = false →
      (executeNextInstruction cfg s).1.pmicStatus = s.pmicStatus ∧
      DevEvent.logCritical ∈ (executeNextInstruction cfg s).1.events) := by
  have he : executeNextInstruction cfg s = execRETI cfg s := by
    unfold executeNextInstruction
    rw [hop]
    rfl
  rw [he]
  unfold execRETI
  split_ifs with h3 h2 h1 h0 hfs hfs hfs hfs hfs <;>
    simp_all [emit, stackGet16, stackGet24]

/-- Concrete state for the c6_reti witness: RETI at PC 0 with the HI
and LO status bits set and a pushed return PC 0x1234 just below SP. -/
def c6state : DeviceState :=
  { base with flash := fun i => if i = 0 then 0x9518 else 0, pmicStatus := 5, sram := fun i => if i = 0x102 then 0x34 else if i = 0x101 then 0x12 else 0 }

/-- Closed witness for c6_reti: SREG untouched, SP moves up by 2 bytes
for 2 cycles, the popped PC is 0x1234, and exactly the HI bit is
cleared (status 5 becomes 1). -/
theorem c6_reti_witness :
    (executeNextInstruction baseCfg c6state).1.sreg = c6state.sreg ∧
    (executeNextInstruction baseCfg c6state).1.sp = (c6state.sp + 2) % 65536 ∧
    (executeNextInstruction baseCfg c6state).2 = 2 ∧
    (executeNextInstruction baseCfg c6state).1.pc = 0x1234 ∧
    (executeNextInstruction baseCfg c6state).1.pmicStatus = 1 := by
  have h := c6_reti baseCfg c6state rfl
  refine ⟨h.1, (h.2.1 (by decide)).1, (h.2.1 (by decide)).2.1, ?_, ?_⟩
  · rw [(h.2.1 (by decide)).2.2]
    decide
  · rw [h.2.2.2.2.1 (by decide) (by decide)]
    decide

/-- Decode of every PUSH encoding together with its register field. -/
theorem tag_push : ∀ r : Nat, r < 32 →
    dispatchTag (0x920F ||| (r <<< 4)) = Tag.push ∧
    ((0x920F ||| (r <<< 4)) >>> 4) &&& 0x1F = r := by decide

/-- Decode of every POP encoding together with its register field. -/
theorem tag_pop : ∀ d : Nat, d < 32 →
    dispatchTag (0x900F ||| (d <<< 4)) = Tag.pop ∧
    ((0x900F ||| (d <<< 4)) >>> 4) &&& 0x1F = d := by decide

set_option maxRecDepth 4000 in
/-- C9: executing PUSH r then POP d stores the value of r into d and
returns SP to its initial value, given SP inside the SRAM range with
room for the pushed byte; PUSH writes the byte addressed by SP then
decrements SP, POP increments SP then reads the byte it addresses. -/
theorem c9_push_pop (cfg : DeviceConfig) (s : DeviceState) (r d : Nat)
    (hr : r < 32) (hd : d < 32)
    (hop1 : flashW s s.pc = 0x920F ||| (r <<< 4))
    (hop2 : flashW s ((s.pc + 1) % 4294967296) = 0x900F ||| (d <<< 4))
    (hsp1 : 0x2000 ≤ s.sp) (hsp2 : s.sp < 0x2000 + cfg.memSramSize)
    (hsp3 : s.sp < 65536) :
    reg8 (executeNextInstruction cfg (executeNextInstruction cfg s).1).1 d = reg8 s r ∧
    (executeNextInstruction cfg (executeNextInstruction cfg s).1).1.sp = s.sp ∧
    (executeNextInstruction cfg (executeNextInstruction cfg s).1).1.pc
      = (s.pc + 2) % 4294967296 := by
  have hpushtag := tag_push r hr
  have hpoptag := tag_pop d hd
  simp only [flashW] at hop1 hop2
  have hsp : ((s.sp + 65535) % 65536 + 1) % 65536 = s.sp := by omega
  have hrlt : s.reg r % 256 < 256 := by omega
  simp only [executeNextInstruction, execOpcode, flashW, hop1, hpushtag.1, hpushtag.2,
    execPUSH, pcInc, hop2, hpoptag.1, hpoptag.2, execPOP, setReg, reg8, hsp]
  simp only [if_true]
  exact ⟨by omega, trivial, by omega⟩

/-- Concrete state for the c9_push_pop witness: PUSH r5 at word 0, POP
r6 at word 1, r5 holding 0xAB. -/
def c9state : DeviceState :=
  { base with flash := fun i => if i = 0 then 0x925F else if i = 1 then 0x906F else 0, reg := fun i => if i = 5 then 0xAB else 0 }

/-- Closed witness for c9_push_pop at c9state. -/
theorem c9_push_pop_witness :
    reg8 (executeNextInstruction baseCfg (executeNextInstruction baseCfg c9state).1).1 6
      = reg8 c9state 5 ∧
    (executeNextInstruction baseCfg (executeNextInstruction baseCfg c9state).1).1.sp
      = c9state.sp ∧
    (executeNextInstruction baseCfg (executeNextInstruction baseCfg c9state).1).1.pc
      = (c9state.pc + 2) % 4294967296 :=
  c9_push_pop baseCfg c9state 5 6 (by decide) (by decide) (by decide) (by decide)
    (by decide) (by decide) (by decide)

/-- Decode of every SBRC/SBRS encoding (selection bit sb, register rr,
bit number b) together with its extracted fields. -/
theorem tag_sbrx : ∀ sb : Nat, sb < 2 → ∀ rr : Nat, rr < 32 → ∀ b : Nat, b < 8 →
    dispatchTag (0xFC00 + sb * 512 + rr * 16 + b) = Tag.sbrx ∧
    ((0xFC00 + sb * 512 + rr * 16 + b) >>> 4) &&& 0x1F = rr ∧
    (0xFC00 + sb * 512 + rr * 16 + b) &&& 7 = b := by decide

/-- Decode of every SBIC/SBIS encoding together with its extracted
fields. -/
theorem tag_sbix : ∀ sb : Nat, sb < 2 → ∀ a : Nat, a < 32 → ∀ b : Nat, b < 8 →
    dispatchTag (0x9900 + sb * 512 + a * 8 + b) = Tag.sbix ∧
    ((0x9900 + sb * 512 + a * 8 + b) >>> 3) &&& 0x1F = a ∧
    (0x9900 + sb * 512 + a * 8 + b) &&& 7 = b := by decide

/-- Decode of every CPSE encoding together with its extracted
fields. -/
theorem tag_cpse : ∀ rh : Nat, rh < 2 → ∀ dd : Nat, dd < 32 → ∀ rl : Nat, rl < 16 →
    dispatchTag (0x1000 + rh * 512 + dd * 16 + rl) = Tag.cpse ∧
    ((0x1000 + rh * 512 + dd * 16 + rl) >>> 4) &&& 0x1F = dd ∧
    rOf (0x1000 + rh * 512 + dd * 16 + rl) = rl + 16 * rh := by decide

/-- Concrete state for the C2 counterexample and witness: SBRC r0,0 at
word 0 (bit 0 of r0 is clear, so the skip is taken) followed by a
one-word opcode. -/
def c2state : DeviceState :=
  { base with flash := fun i => if i = 0 then 0xFC00 else 0 }

/-- C2 counterexample: a taken SBRC skip over a 16-bit opcode advances
PC by 2 but charges 3 cycles, not the 2 cycles the claim states. -/
theorem c2_counterexample :
    (executeNextInstruction baseCfg c2state).1.pc = 2 ∧
    (executeNextInstruction baseCfg c2state).2 = 3 ∧
    ¬ (executeNextInstruction baseCfg c2state).2 = 2 := by decide

/-- C2 as amended: for every taken skip, a 32-bit next opcode gives
PC+3 and 3 cycles for all five skip instructions; a 16-bit next opcode
gives PC+2 with 2 cycles for SBIC/SBIS/CPSE but 3 cycles for
SBRC/SBRS. -/
theorem c2_skip_semantics :
    (∀ (cfg : DeviceConfig) (s : DeviceState) (rr b sb : Nat),
      rr < 32 → b < 8 → sb < 2 →
      flashW s s.pc = 0xFC00 + sb * 512 + rr * 16 + b →
      ((reg8 s rr >>> b) ^^^ ((0xFC00 + sb * 512 + rr * 16 + b) >>> 9)) &&& 1 = 0 →
      (opcode_is_32b (flashW s (s.pc + 1)) = true →
        (executeNextInstruction cfg s).1.pc = (s.pc + 3) % 4294967296 ∧
        (executeNextInstruction cfg s).2 = 3) ∧
      (opcode_is_32b (flashW s (s.pc + 1)) = false →
        (executeNextInstruction cfg s).1.pc = (s.pc + 2) % 4294967296 ∧
        (executeNextInstruction cfg s).2 = 3)) ∧
    (∀ (cfg : DeviceConfig) (s : DeviceState) (a b sb : Nat),
      a < 32 → b < 8 → sb < 2 →
      flashW s s.pc = 0x9900 + sb * 512 + a * 8 + b →
      ((getIoMem s a >>> b) ^^^ ((0x9900 + sb * 512 + a * 8 + b) >>> 9)) &&& 1 = 0 →
      (opcode_is_32b (flashW s (s.pc + 1)) = true →
        (executeNextInstruction cfg s).1.pc = (s.pc + 3) % 4294967296 ∧
        (executeNextInstruction cfg s).2 = 3) ∧
      (opcode_is_32b (flashW s (s.pc + 1)) = false →
        (executeNextInstruction cfg s).1.pc = (s.pc + 2) % 4294967296 ∧
        (executeNextInstruction cfg s).2 = 2)) ∧
    (∀ (cfg : DeviceConfig) (s : DeviceState) (dd rl rh : Nat),
      dd < 32 → rl < 16 → rh < 2 →
      flashW s s.pc = 0x1000 + rh * 512 + dd * 16 + rl →
      reg8 s dd = reg8 s (rl + 16 * rh) →
      (opcode_is_32b (flashW s (s.pc + 1)) = true →
        (executeNextInstruction cfg s).1.pc = (s.pc + 3) % 4294967296 ∧
        (executeNextInstruction cfg s).2 = 3) ∧
      (opcode_is_32b (flashW s (s.pc + 1)) = false →
        (executeNextInstruction cfg s).1.pc = (s.pc + 2) % 4294967296 ∧
        (executeNextInstruction cfg s).2 = 2)) := by
  refine ⟨?_, ?_, ?_⟩
  · intro cfg s rr b sb hrr hb hsb hop hskip
    have h := tag_sbrx sb hsb rr hrr b hb
    have he : executeNextInstruction cfg s = execSBRX (0xFC00 + sb * 512 + rr * 16 + b) s := by
      unfold executeNextInstruction
      rw [hop]
      unfold execOpcode
      rw [h.1]
    rw [he]
    unfold execSBRX
    rw [h.2.1, h.2.2, if_pos hskip]
    constructor
    · intro h32
      rw [if_pos h32]
      exact ⟨rfl, rfl⟩
    · intro h32
      rw [if_neg (by simp [h32])]
      exact ⟨rfl, rfl⟩
  · intro cfg s a b sb ha hb hsb hop hskip
    have h := tag_sbix sb hsb a ha b hb
    have he : executeNextInstruction cfg s = execSBIX (0x9900 + sb * 512 + a * 8 + b) s := by
      unfold executeNextInstruction
      rw [hop]
      unfold execOpcode
      rw [h.1]
    rw [he]
    unfold execSBIX
    rw [h.2.1, h.2.2, if_pos hskip]
    constructor
    · intro h32
      rw [if_pos h32]
      exact ⟨rfl, rfl⟩
    · intro h32
      rw [if_neg (by simp [h32])]
      exact ⟨rfl, rfl⟩
  · intro cfg s dd rl rh hdd hrl hrh hop heq
    have h := tag_cpse rh hrh dd hdd rl hrl
    have he : executeNextInstruction cfg s = execCPSE (0x1000 + rh * 512 + dd * 16 + rl) s := by
      unfold executeNextInstruction
      rw [hop]
      unfold execOpcode
      rw [h.1]
    rw [he]
    unfold execCPSE
    rw [h.2.1, h.2.2, if_pos heq]
    constructor
    · intro h32
      rw [if_pos h32]
      exact ⟨rfl, rfl⟩
    · intro h32
      rw [if_neg (by simp [h32])]
      exact ⟨rfl, rfl⟩

/-- Closed witness for c2_skip_semantics: the SBRC part at c2state. -/
theorem c2_skip_semantics_witness :
    (opcode_is_32b (flashW c2state (c2state.pc + 1)) = true →
      (executeNextInstruction baseCfg c2state).1.pc = (c2state.pc + 3) % 4294967296 ∧
      (executeNextInstruction baseCfg c2state).2 = 3) ∧
    (opcode_is_32b (flashW c2state (c2state.pc + 1)) = false →
      (executeNextInstruction baseCfg c2state).1.pc = (c2state.pc + 2) % 4294967296 ∧
      (executeNextInstruction baseCfg c2state).2 = 3) :=
  c2_skip_semantics.1 baseCfg c2state 0 0 0 (by decide) (by decide) (by decide)
    (by decide) (by decide)

/-- The pending-interrupt uniqueness invariant: a vector number is in
at most one of the four queues. -/
def IvInv (s : DeviceState) : Prop :=
  ∀ n : Nat,
    (n ∈ s.pendLo → n ∉ s.pendMed ∧ n ∉ s.pendHi ∧ n ∉ s.pendNmi) ∧
    (n ∈ s.pendMed → n ∉ s.pendHi ∧ n ∉ s.pendNmi) ∧
    (n ∈ s.pendHi → n ∉ s.pendNmi)

/-- Queue contents after setIvLvl at level NONE, under the invariant. -/
lemma setIvLvl_queues0 (s : DeviceState) (iv : Nat) (hInv : IvInv s) :
    (setIvLvl s iv 0).pendLo = s.pendLo.erase iv ∧
    (setIvLvl s iv 0).pendMed = s.pendMed.erase iv ∧
    (setIvLvl s iv 0).pendHi = s.pendHi.erase iv ∧
    (setIvLvl s iv 0).pendNmi = s.pendNmi.erase iv := by
  have hiv := hInv iv
  unfold setIvLvl
  rw [if_pos rfl]
  by_cases h1 : iv ∈ s.pendLo
  · rw [if_pos h1]
    exact ⟨rfl, (Finset.erase_eq_of_not_mem (hiv.1 h1).1).symm,
      (Finset.erase_eq_of_not_mem (hiv.1 h1).2.1).symm,
      (Finset.erase_eq_of_not_mem (hiv.1 h1).2.2).symm⟩
  · rw [if_neg h1]
    by_cases h2 : iv ∈ s.pendMed
    · rw [if_pos h2]
      exact ⟨(Finset.erase_eq_of_not_mem h1).symm, rfl,
        (Finset.erase_eq_of_not_mem (hiv.2.1 h2).1).symm,
        (Finset.erase_eq_of_not_mem (hiv.2.1 h2).2).symm⟩
    · rw [if_neg h2]
      by_cases h3 : iv ∈ s.pendHi
      · rw [if_pos h3]
        exact ⟨(Finset.erase_eq_of_not_mem h1).symm, (Finset.erase_eq_of_not_mem h2).symm,
          rfl, (Finset.erase_eq_of_not_mem (hiv.2.2 h3)).symm⟩
      · rw [if_neg h3]
        by_cases h4 : iv ∈ s.pendNmi
        · rw [if_pos h4]
          exact ⟨(Finset.erase_eq_of_not_mem h1).symm, (Finset.erase_eq_of_not_mem h2).symm,
            (Finset.erase_eq_of_not_mem h3).symm, rfl⟩
        · rw [if_neg h4]
          exact ⟨(Finset.erase_eq_of_not_mem h1).symm, (Finset.erase_eq_of_not_mem h2).symm,
            (Finset.erase_eq_of_not_mem h3).symm, (Finset.erase_eq_of_not_mem h4).symm⟩

/-- Queue contents after setIvLvl at level LO, under the invariant. -/
lemma setIvLvl_queues1 (s : DeviceState) (iv : Nat) (hInv : IvInv s) :
    (setIvLvl s iv 1).pendLo = insert iv s.pendLo ∧
    (setIvLvl s iv 1).pendMed = s.pendMed.erase iv ∧
    (setIvLvl s iv 1).pendHi = s.pendHi.erase iv ∧
    (setIvLvl s iv 1).pendNmi = s.pendNmi.erase iv := by
  have hiv := hInv iv
  unfold setIvLvl
  rw [if_neg (by omega), if_pos rfl]
  by_cases h1 : iv ∈ s.pendLo
  · rw [if_pos h1]
    exact ⟨(Finset.insert_eq_self.mpr h1).symm,
      (Finset.erase_eq_of_not_mem (hiv.1 h1).1).symm,
      (Finset.erase_eq_of_not_mem (hiv.1 h1).2.1).symm,
      (Finset.erase_eq_of_not_mem (hiv.1 h1).2.2).symm⟩
  · rw [if_neg h1]
    by_cases h2 : iv ∈ s.pendMed
    · rw [if_pos h2]
      exact ⟨rfl, rfl, (Finset.erase_eq_of_not_mem (hiv.2.1 h2).1).symm,
        (Finset.erase_eq_of_not_mem (hiv.2.1 h2).2).symm⟩
    · rw [if_neg h2]
      by_cases h3 : iv ∈ s.pendHi
      · rw [if_pos h3]
        exact ⟨rfl, (Finset.erase_eq_of_not_mem h2).symm, rfl,
          (Finset.erase_eq_of_not_mem (hiv.2.2 h3)).symm⟩
      · rw [if_neg h3]
        by_cases h4 : iv ∈ s.pendNmi
        · rw [if_pos h4]
          exact ⟨rfl, (Finset.erase_eq_of_not_mem h2).symm,
            (Finset.erase_eq_of_not_mem h3).symm, rfl⟩
        · rw [if_neg h4]
          exact ⟨rfl, (Finset.erase_eq_of_not_mem h2).symm,
            (Finset.erase_eq_of_not_mem h3).symm, (Finset.erase_eq_of_not_mem h4).symm⟩

/-- Queue contents after setIvLvl at level MED, under the invariant. -/
lemma setIvLvl_queues2 (s : DeviceState) (iv : Nat) (hInv : IvInv s) :
    (setIvLvl s iv 2).pendMed = insert iv s.pendMed ∧
    (setIvLvl s iv 2).pendLo = s.pendLo.erase iv ∧
    (setIvLvl s iv 2).pendHi = s.pendHi.erase iv ∧
    (setIvLvl s iv 2).pendNmi = s.pendNmi.erase iv := by
  have hiv := hInv iv
  unfold setIvLvl
  rw [if_neg (by omega), if_neg (by omega), if_pos rfl]
  by_cases h1 : iv ∈ s.pendMed
  · rw [if_pos h1]
    exact ⟨(Finset.insert_eq_self.mpr h1).symm,
      (Finset.erase_eq_of_not_mem fun hl => (hiv.1 hl).1 h1).symm,
      (Finset.erase_eq_of_not_mem (hiv.2.1 h1).1).symm,
      (Finset.erase_eq_of_not_mem (hiv.2.1 h1).2).symm⟩
  · rw [if_neg h1]
    by_cases h2 : iv ∈ s.pendLo
    · rw [if_pos h2]
      exact ⟨rfl, rfl, (Finset.erase_eq_of_not_mem (hiv.1 h2).2.1).symm,
        (Finset.erase_eq_of_not_mem (hiv.1 h2).2.2).symm⟩
    · rw [if_neg h2]
      by_cases h3 : iv ∈ s.pendHi
      · rw [if_pos h3]
        exact ⟨rfl, (Finset.erase_eq_of_not_mem h2).symm, rfl,
          (Finset.erase_eq_of_not_mem (hiv.2.2 h3)).symm⟩
      · rw [if_neg h3]
        by_cases h4 : iv ∈ s.pendNmi
        · rw [if_pos h4]
          exact ⟨rfl, (Finset.erase_eq_of_not_mem h2).symm,
            (Finset.erase_eq_of_not_mem h3).symm, rfl⟩
        · rw [if_neg h4]
          exact ⟨rfl, (Finset.erase_eq_of_not_mem h2).symm,
            (Finset.erase_eq_of_not_mem h3).symm, (Finset.erase_eq_of_not_mem h4).symm⟩

/-- Queue contents after setIvLvl at level HI, under the invariant. -/
lemma setIvLvl_queues3 (s : DeviceState) (iv : Nat) (hInv : IvInv s) :
    (setIvLvl s iv 3).pendHi = insert iv s.pendHi ∧
    (setIvLvl s iv 3).pendLo = s.pendLo.erase iv ∧
    (setIvLvl s iv 3).pendMed = s.pendMed.erase iv ∧
    (setIvLvl s iv 3).pendNmi = s.pendNmi.erase iv := by
  have hiv := hInv iv
  unfold setIvLvl
  rw [if_neg (by omega), if_neg (by omega), if_neg (by omega), if_pos rfl]
  by_cases h1 : iv ∈ s.pendHi
  · rw [if_pos h1]
    exact ⟨(Finset.insert_eq_self.mpr h1).symm,
      (Finset.erase_eq_of_not_mem fun hl => (hiv.1 hl).2.1 h1).symm,
      (Finset.erase_eq_of_not_mem fun hm => (hiv.2.1 hm).1 h1).symm,
      (Finset.erase_eq_of_not_mem (hiv.2.2 h1)).symm⟩
  · rw [if_neg h1]
    by_cases h2 : iv ∈ s.pendLo
    · rw [if_pos h2]
      exact ⟨rfl, rfl, (Finset.erase_eq_of_not_mem (hiv.1 h2).1).symm,
        (Finset.erase_eq_of_not_mem (hiv.1 h2).2.2).symm⟩
    · rw [if_neg h2]
      by_cases h3 : iv ∈ s.pendMed
      · rw [if_pos h3]
        exact ⟨rfl, (Finset.erase_eq_of_not_mem h2).symm, rfl,
          (Finset.erase_eq_of_not_mem (hiv.2.1 h3).2).symm⟩
      · rw [if_neg h3]
        by_cases h4 : iv ∈ s.pendNmi
        · rw [if_pos h4]
          exact ⟨rfl, (Finset.erase_eq_of_not_mem h2).symm,
            (Finset.erase_eq_of_not_mem h3).symm, rfl⟩
        · rw [if_neg h4]
          exact ⟨rfl, (Finset.erase_eq_of_not_mem h2).symm,
            (Finset.erase_eq_of_not_mem h3).symm, (Finset.erase_eq_of_not_mem h4).symm⟩

/-- Queue contents after setIvLvl at level NMI, under the invariant. -/
lemma setIvLvl_queues4 (s : DeviceState) (iv : Nat) (hInv : IvInv s) :
    (setIvLvl s iv 4).pendNmi = insert iv s.pendNmi ∧
    (setIvLvl s iv 4).pendLo = s.pendLo.erase iv ∧
    (setIvLvl s iv 4).pendMed = s.pendMed.erase iv ∧
    (setIvLvl s iv 4).pendHi = s.pendHi.erase iv := by
  have hiv := hInv iv
  unfold setIvLvl
  rw [if_neg (by omega), if_neg (by omega), if_neg (by omega), if_neg (by omega), if_pos rfl]
  by_cases h1 : iv ∈ s.pendNmi
  · rw [if_pos h1]
    exact ⟨(Finset.insert_eq_self.mpr h1).symm,
      (Finset.erase_eq_of_not_mem fun hl => (hiv.1 hl).2.2 h1).symm,
      (Finset.erase_eq_of_not_mem fun hm => (hiv.2.1 hm).2 h1).symm,
      (Finset.erase_eq_of_not_mem fun hh => hiv.2.2 hh h1).symm⟩
  · rw [if_neg h1]
    by_cases h2 : iv ∈ s.pendLo
    · rw [if_pos h2]
      exact ⟨rfl, rfl, (Finset.erase_eq_of_not_mem (hiv.1 h2).1).symm,
        (Finset.erase_eq_of_not_mem (hiv.1 h2).2.1).symm⟩
    · rw [if_neg h2]
      by_cases h3 : iv ∈ s.pendMed
      · rw [if_pos h3]
        exact ⟨rfl, (Finset.erase_eq_of_not_mem h2).symm, rfl,
          (Finset.erase_eq_of_not_mem (hiv.2.1 h3).1).symm⟩
      · rw [if_neg h3]
        by_cases h4 : iv ∈ s.pendHi
        · rw [if_pos h4]
          exact ⟨rfl, (Finset.erase_eq_of_not_mem h2).symm,
            (Finset.erase_eq_of_not_mem h3).symm, rfl⟩
        · rw [if_neg h4]
          exact ⟨rfl, (Finset.erase_eq_of_not_mem h2).symm,
            (Finset.erase_eq_of_not_mem h3).symm, (Finset.erase_eq_of_not_mem h4).symm⟩

/-- Queue contents after setIvLvl at an invalid level: unchanged. -/
lemma setIvLvl_queues_other (s : DeviceState) (iv lvl : Nat) (h : 5 ≤ lvl) :
    (setIvLvl s iv lvl).pendLo = s.pendLo ∧
    (setIvLvl s iv lvl).pendMed = s.pendMed ∧
    (setIvLvl s iv lvl).pendHi = s.pendHi ∧
    (setIvLvl s iv lvl).pendNmi = s.pendNmi := by
  unfold setIvLvl
  rw [if_neg (by omega), if_neg (by omega), if_neg (by omega), if_neg (by omega),
    if_neg (by omega)]
  exact ⟨rfl, rfl, rfl, rfl⟩

set_option maxHeartbeats 2000000 in
/-- C5: setIvLvl preserves the at-most-one-queue invariant; level NONE
removes the vector from every queue, and each level L places the
vector in the queue for L and in no other. -/
theorem c5_pending_unique (s : DeviceState) (iv lvl : Nat) (hInv : IvInv s) :
    IvInv (setIvLvl s iv lvl) ∧
    (lvl = 0 → iv ∉ (setIvLvl s iv lvl).pendLo ∧ iv ∉ (setIvLvl s iv lvl).pendMed ∧
      iv ∉ (setIvLvl s iv lvl).pendHi ∧ iv ∉ (setIvLvl s iv lvl).pendNmi) ∧
    (lvl = 1 → iv ∈ (setIvLvl s iv lvl).pendLo ∧ iv ∉ (setIvLvl s iv lvl).pendMed ∧
      iv ∉ (setIvLvl s iv lvl).pendHi ∧ iv ∉ (setIvLvl s iv lvl).pendNmi) ∧
    (lvl = 2 → iv ∈ (setIvLvl s iv lvl).pendMed ∧ iv ∉ (setIvLvl s iv lvl).pendLo ∧
      iv ∉ (setIvLvl s iv lvl).pendHi ∧ iv ∉ (setIvLvl s iv lvl).pendNmi) ∧
    (lvl = 3 → iv ∈ (setIvLvl s iv lvl).pendHi ∧ iv ∉ (setIvLvl s iv lvl).pendLo ∧
      iv ∉ (setIvLvl s iv lvl).pendMed ∧ iv ∉ (setIvLvl s iv lvl).pendNmi) ∧
    (lvl = 4 → iv ∈ (setIvLvl s iv lvl).pendNmi ∧ iv ∉ (setIvLvl s iv lvl).pendLo ∧
      iv ∉ (setIvLvl s iv lvl).pendMed ∧ iv ∉ (setIvLvl s iv lvl).pendHi) := by
  by_cases h0 : lvl = 0
  · subst h0
    obtain ⟨e1, e2, e3, e4⟩ := setIvLvl_queues0 s iv hInv
    refine ⟨?_, fun _ => ?_, fun h => absurd h (by decide), fun h => absurd h (by decide), fun h => absurd h (by decide), fun h => absurd h (by decide)⟩
    · intro n
      have hn := hInv n
      rw [e1, e2, e3, e4]
      simp only [Finset.mem_erase]
      tauto
    · rw [e1, e2, e3, e4]
      exact ⟨Finset.not_mem_erase iv _, Finset.not_mem_erase iv _,
        Finset.not_mem_erase iv _, Finset.not_mem_erase iv _⟩
  by_cases h1 : lvl = 1
  · subst h1
    obtain ⟨e1, e2, e3, e4⟩ := setIvLvl_queues1 s iv hInv
    refine ⟨?_, fun h => absurd h (by decide), fun _ => ?_, fun h => absurd h (by decide), fun h => absurd h (by decide), fun h => absurd h (by decide)⟩
    · intro n
      have hn := hInv n
      rw [e1, e2, e3, e4]
      simp only [Finset.mem_erase, Finset.mem_insert]
      by_cases hni : n = iv
      · subst hni
        simp only [true_or, forall_const]
        tauto
      · tauto
    · rw [e1, e2, e3, e4]
      exact ⟨Finset.mem_insert_self iv _, Finset.not_mem_erase iv _,
        Finset.not_mem_erase iv _, Finset.not_mem_erase iv _⟩
  by_cases h2 : lvl = 2
  · subst h2
    obtain ⟨e1, e2, e3, e4⟩ := setIvLvl_queues2 s iv hInv
    refine ⟨?_, fun h => absurd h (by decide), fun h => absurd h (by decide), fun _ => ?_, fun h => absurd h (by decide), fun h => absurd h (by decide)⟩
    · intro n
      have hn := hInv n
      rw [e1, e2, e3, e4]
      simp only [Finset.mem_erase, Finset.mem_insert]
      by_cases hni : n = iv
      · subst hni
        simp only [true_or, forall_const]
        tauto
      · tauto
    · rw [e1, e2, e3, e4]
      exact ⟨Finset.mem_insert_self iv _, Finset.not_mem_erase iv _,
        Finset.not_mem_erase iv _, Finset.not_mem_erase iv _⟩
  by_cases h3 : lvl = 3
  · subst h3
    obtain ⟨e1, e2, e3, e4⟩ := setIvLvl_queues3 s iv hInv
    refine ⟨?_, fun h => absurd h (by decide), fun h => absurd h (by decide), fun h => absurd h (by decide), fun _ => ?_, fun h => absurd h (by decide)⟩
    · intro n
      have hn := hInv n
      rw [e1, e2, e3, e4]
      simp only [Finset.mem_erase, Finset.mem_insert]
      by_cases hni : n = iv
      · subst hni
        simp only [true_or, forall_const]
        tauto
      · tauto
    · rw [e1, e2, e3, e4]
      exact ⟨Finset.mem_insert_self iv _, Finset.not_mem_erase iv _,
        Finset.not_mem_erase iv _, Finset.not_mem_erase iv _⟩
  by_cases h4 : lvl = 4
  · subst h4
    obtain ⟨e1, e2, e3, e4⟩ := setIvLvl_queues4 s iv hInv
    refine ⟨?_, fun h => absurd h (by decide), fun h => absurd h (by decide), fun h => absurd h (by decide), fun h => absurd h (by decide), fun _ => ?_⟩
    · intro n
      have hn := hInv n
      rw [e1, e2, e3, e4]
      simp only [Finset.mem_erase, Finset.mem_insert]
      by_cases hni : n = iv
      · subst hni
        simp only [true_or, forall_const]
        tauto
      · tauto
    · rw [e1, e2, e3, e4]
      exact ⟨Finset.mem_insert_self iv _, Finset.not_mem_erase iv _,
        Finset.not_mem_erase iv _, Finset.not_mem_erase iv _⟩
  obtain ⟨e1, e2, e3, e4⟩ := setIvLvl_queues_other s iv lvl (by omega)
  refine ⟨?_, fun h => absurd h h0, fun h => absurd h h1, fun h => absurd h h2, fun h => absurd h h3, fun h => absurd h h4⟩
  intro n
  have hn := hInv n
  rw [e1, e2, e3, e4]
  exact hn

/-- Concrete state for the c5_pending_unique witness: vector 3 pending
at MED. -/
def c5state : DeviceState := { base with pendMed := {3} }

/-- Closed witness for c5_pending_unique: moving vector 3 from MED to
LO keeps the invariant and leaves it exactly in the LO queue. -/
theorem c5_pending_unique_witness :
    IvInv (setIvLvl c5state 3 1) ∧
    ((1 : Nat) = 0 → 3 ∉ (setIvLvl c5state 3 1).pendLo ∧ 3 ∉ (setIvLvl c5state 3 1).pendMed ∧
      3 ∉ (setIvLvl c5state 3 1).pendHi ∧ 3 ∉ (setIvLvl c5state 3 1).pendNmi) ∧
    ((1 : Nat) = 1 → 3 ∈ (setIvLvl c5state 3 1).pendLo ∧ 3 ∉ (setIvLvl c5state 3 1).pendMed ∧
      3 ∉ (setIvLvl c5state 3 1).pendHi ∧ 3 ∉ (setIvLvl c5state 3 1).pendNmi) ∧
    ((1 : Nat) = 2 → 3 ∈ (setIvLvl c5state 3 1).pendMed ∧ 3 ∉ (setIvLvl c5state 3 1).pendLo ∧
      3 ∉ (setIvLvl c5state 3 1).pendHi ∧ 3 ∉ (setIvLvl c5state 3 1).pendNmi) ∧
    ((1 : Nat) = 3 → 3 ∈ (setIvLvl c5state 3 1).pendHi ∧ 3 ∉ (setIvLvl c5state 3 1).pendLo ∧
      3 ∉ (setIvLvl c5state 3 1).pendMed ∧ 3 ∉ (setIvLvl c5state 3 1).pendNmi) ∧
    ((1 : Nat) = 4 → 3 ∈ (setIvLvl c5state 3 1).pendNmi ∧ 3 ∉ (setIvLvl c5state 3 1).pendLo ∧
      3 ∉ (setIvLvl c5state 3 1).pendMed ∧ 3 ∉ (setIvLvl c5state 3 1).pendHi) :=
  c5_pending_unique c5state 3 1 (by intro n; simp [c5state, base])

/-- Every decode arm returns at least one cycle, so the source's
fetch-execute while loop runs exactly once per entry with zero debt
(justifying the single conditional execution in stepCPU). -/
theorem execOpcode_cycles_pos (cfg : DeviceConfig) (op : Nat) (s : DeviceState) :
    1 ≤ (execOpcode cfg op s).2 := by
  unfold execOpcode
  cases h : dispatchTag op
  all_goals simp only [execNOP, execBSET, execBCLR, execSBI, execCBI, execCOM, execNEG,
    execSWAP, execINC, execASR, execLSR, execROR, execDEC, execCP, execCPC, execADD,
    execADC, execSUB, execSBC, execMUL, execMULS, execMULSU, execFMUL, execFMULS,
    execFMULSU, execAND, execEOR, execOR, execMOV, execCPI, execSUBI, execSBCI,
    execANDI, execORI, execMOVW, execADIW, execSBIW, execBLD, execBST, execLDI,
    execLDS, execLDXi, execLDXii, execLDXiii, execLDDY, execLDYii, execLDYiii,
    execLDDZ, execLDZii, execLDZiii, execSTS, execSTXi, execSTXii, execSTXiii,
    execSTDY, execSTYii, execSTYiii, execSTDZ, execSTZii, execSTZiii, execLPMi,
    execLPMii, execELPMi, execELPMii, execSPM, execXCH, execLAC, execLAS, execLAT,
    execJMP, execRJMP, execIJMP, execEIJMP, execBRB, execSBRX, execSBIX, execCPSE,
    execCALL, execRCALL, execICALL, execEICALL, execRET, execRETI, execPOP, execPUSH,
    execIN, execOUT, execWDR, execSLEEP, execBREAK, execDES, execUNK]
  all_goals (repeat' split)
  all_goals omega

/-- When arbitration declines, the device state is untouched. -/
lemma processPendingInterrupts_miss (cfg : DeviceConfig) (s : DeviceState) :
    (processPendingInterrupts cfg s).1 = false → (processPendingInterrupts cfg s).2 = s := by
  unfold processPendingInterrupts
  dsimp only
  split_ifs <;> simp_all

/-- A dispatching step requires the retirement flag clear, sets it,
and executes no instruction itself. -/
lemma stepCPU_dispatch_wait (cfg : DeviceConfig) (s : DeviceState) :
    (stepCPU cfg s).dispatched = true →
    s.interruptWaitInstruction = false ∧
    (stepCPU cfg s).state.interruptWaitInstruction = true ∧
    (stepCPU cfg s).executed = false := by
  unfold stepCPU
  dsimp only
  split_ifs <;> simp_all

/-- A step that does not execute an instruction keeps the retirement
flag set. -/
lemma stepCPU_keep_wait (cfg : DeviceConfig) (s : DeviceState) :
    (stepCPU cfg s).executed = false → s.interruptWaitInstruction = true →
    (stepCPU cfg s).state.interruptWaitInstruction = true := by
  unfold stepCPU
  dsimp only
  intro hx hw
  split_ifs at hx ⊢ <;> simp_all [processPendingInterrupts_miss]

/-- C7: between any two interrupt acknowledgements of the CPU step
callback at least one instruction retires: if steps i and j of the
trace both dispatch, some strictly intermediate step executes an
instruction.  The environment transformation applied between steps may
change any state except the retirement flag (which only the CPU
touches); instructions are atomic in this model, so none is preempted
between start and retirement. -/
theorem c7_dispatch_separation (cfg : DeviceConfig)
    (env : Nat → DeviceState → DeviceState) (s : DeviceState)
    (henv : ∀ n t, (env n t).interruptWaitInstruction = t.interruptWaitInstruction)
    (i j : Nat) (hij : i < j)
    (hdi : dispatchedAt cfg env s i = true) (hdj : dispatchedAt cfg env s j = true) :
    ∃ k, i < k ∧ k < j ∧ executedAt cfg env s k = true := by
  by_contra hcon
  push_neg at hcon
  have hnoex : ∀ k, i < k → k < j → executedAt cfg env s k = false := by
    intro k h1 h2
    have := hcon k h1 h2
    simpa using this
  have key : ∀ m, i < m → m ≤ j → (cpuTrace cfg env s m).interruptWaitInstruction = true := by
    intro m
    induction m with
    | zero => omega
    | succ n ih =>
      intro h1 h2
      show (env n (stepCPU cfg (cpuTrace cfg env s n)).state).interruptWaitInstruction = true
      rw [henv]
      by_cases hni : i = n
      · subst hni
        exact (stepCPU_dispatch_wait cfg _ hdi).2.1
      · have hin : i < n := by omega
        have hw := ih hin (by omega)
        have hex : executedAt cfg env s n = false := hnoex n hin (by omega)
        exact stepCPU_keep_wait cfg _ hex hw
  have hwj := key j hij le_rfl
  have hfalse := (stepCPU_dispatch_wait cfg (cpuTrace cfg env s j) hdj).1
  rw [hfalse] at hwj
  exact absurd hwj (by simp)

/-- Concrete trace for the c7 witness: a LO interrupt pending at reset
with I set; the environment posts a HI interrupt before step 5. -/
def c7state : DeviceState := { base with sreg := 0x80, pmicLolvlen := true, pendLo := {1} }

/-- Environment for the c7 witness: posts a pending HI vector after
step 4 and otherwise does nothing. -/
def c7env : Nat → DeviceState → DeviceState :=
  fun n t => if n = 4 then { t with pendHi := ({2} : Finset Nat), pmicHilvlen := true } else t

/-- Closed witness for c7_dispatch_separation: the trace from c7state
dispatches at steps 0 and 6, so an instruction retires strictly in
between. -/
theorem c7_dispatch_separation_witness :
    ∃ k, 0 < k ∧ k < 6 ∧ executedAt baseCfg c7env c7state k = true :=
  c7_dispatch_separation baseCfg c7env c7state
    (fun n t => by unfold c7env; split <;> rfl) 0 6 (by decide) (by decide) (by decide)

/-- Arbitration as the amended claim words it: NMI when an NMI vector
is pending and the current level is below NMI; else HIGH when hilvlen
is set, the HIGH queue is non-empty and the current level is below
HIGH; else MED and LO under the analogous conditions; the chosen
vector is the smallest of the chosen queue. -/
def specArb (s : DeviceState) : Option (Nat × Nat) :=
  if currentIntLvl s < 4 ∧ s.pendNmi.Nonempty then some (4, qMin s.pendNmi)
  else if s.pmicHilvlen = true ∧ s.pendHi.Nonempty ∧ currentIntLvl s < 3 then some (3, qMin s.pendHi)
  else if s.pmicMedlvlen = true ∧ s.pendMed.Nonempty ∧ currentIntLvl s < 2 then some (2, qMin s.pendMed)
  else if s.pmicLolvlen = true ∧ s.pendLo.Nonempty ∧ currentIntLvl s < 1 then some (1, qMin s.pendLo)
  else none

/-- The current interrupt level is one of NONE..NMI. -/
lemma currentIntLvl_le (s : DeviceState) : currentIntLvl s ≤ 4 := by
  unfold currentIntLvl
  split_ifs <;> omega

/-- The source arbitration agrees with specArb: a miss leaves the
state unchanged, and a hit acknowledges the chosen vector after
removing it from its queue. -/
lemma ppi_spec (cfg : DeviceConfig) (s : DeviceState) :
    processPendingInterrupts cfg s =
      match specArb s with
      | none => (false, s)
      | some (4, iv) => (true, ackIv cfg { s with pendNmi := s.pendNmi.erase iv } 4 iv)
      | some (3, iv) => (true, ackIv cfg { s with pendHi := s.pendHi.erase iv } 3 iv)
      | some (2, iv) => (true, ackIv cfg { s with pendMed := s.pendMed.erase iv } 2 iv)
      | some (1, iv) => (true, ackIv cfg { s with pendLo := s.pendLo.erase iv } 1 iv)
      | some _ => (false, s) := by
  have hb := currentIntLvl_le s
  have hv : currentIntLvl s = 0 ∨ currentIntLvl s = 1 ∨ currentIntLvl s = 2 ∨
      currentIntLvl s = 3 ∨ currentIntLvl s = 4 := by omega
  unfold processPendingInterrupts specArb
  rcases hv with h | h | h | h | h <;> rw [h] <;> norm_num <;>
    split_ifs <;> simp_all

/-- Shape of a successful arbitration: the level is one of 1..4 and
the vector is the minimum of the matching queue. -/
lemma specArb_char (s : DeviceState) (lvl iv : Nat) (h : specArb s = some (lvl, iv)) :
    (lvl = 4 ∨ lvl = 3 ∨ lvl = 2 ∨ lvl = 1) ∧
    (lvl = 4 → iv = qMin s.pendNmi) ∧ (lvl = 3 → iv = qMin s.pendHi) ∧
    (lvl = 2 → iv = qMin s.pendMed) ∧ (lvl = 1 → iv = qMin s.pendLo) := by
  unfold specArb at h
  split_ifs at h <;>
    simp only [Option.some_inj, Prod.mk.injEq] at h <;>
    obtain ⟨h1, h2⟩ := h <;> subst h1 <;> subst h2 <;> simp

/-- Field-level description of the acknowledgement tail: status bit
set, vector address with IVSEL, executeIv call recorded, return PC
pushed with the width chosen by the 128 KiB flash boundary, queues
untouched. -/
lemma ackIv_fields (cfg : DeviceConfig) (s : DeviceState) (lvlNew iv : Nat) :
    (ackIv cfg s lvlNew iv).pmicStatus = (s.pmicStatus ||| (1 <<< (lvlNew - 1))) ∧
    (ackIv cfg s lvlNew iv).pc = 2 * iv + (if s.pmicIvsel then cfg.flashBootStart else 0) ∧
    DevEvent.executeIv (iv - cfg.ivBase iv) iv ∈ (ackIv cfg s lvlNew iv).events ∧
    (cfg.flashSize ≤ 0x20000 →
      (ackIv cfg s lvlNew iv).sp = (s.sp + 65534) % 65536 ∧
      (ackIv cfg s lvlNew iv).sram = stackSet16 s.sram s.sp s.pc) ∧
    (¬ cfg.flashSize ≤ 0x20000 →
      (ackIv cfg s lvlNew iv).sp = (s.sp + 65533) % 65536 ∧
      (ackIv cfg s lvlNew iv).sram = stackSet24 s.sram s.sp s.pc) ∧
    (ackIv cfg s lvlNew iv).pendLo = s.pendLo ∧
    (ackIv cfg s lvlNew iv).pendMed = s.pendMed ∧
    (ackIv cfg s lvlNew iv).pendHi = s.pendHi ∧
    (ackIv cfg s lvlNew iv).pendNmi = s.pendNmi := by
  unfold ackIv emit
  by_cases hfs : cfg.flashSize ≤ 0x20000 <;> simp [hfs]

/-- C1 as amended: with no cycle debt, the previous instruction
retired, I set and CCP inactive, the CPU step dispatches exactly when
the amended arbitration (which also requires the current level to be
below NMI for NMI dispatch) selects a level; on a hit the smallest
vector of the chosen queue is removed, the PMIC status bit for the
level is set, the return PC is pushed (2 bytes at or below 128 KiB
flash, else 3) decrementing SP accordingly, PC becomes 2*iv plus
flash_boot_start under IVSEL, the owning block's executeIv(iv -
iv_base) is invoked, and 5 cycles of instruction debt are charged (of
which the dispatching step itself consumes one, leaving 4). -/
theorem c1_interrupt_dispatch (cfg : DeviceConfig) (s : DeviceState)
    (hc : s.instructionCycles = 0) (hw : s.interruptWaitInstruction = false)
    (hI : sregI s = true) (hccp : s.ccp = 0) :
    (specArb s = none → (stepCPU cfg s).dispatched = false) ∧
    (∀ lvl iv, specArb s = some (lvl, iv) →
      (stepCPU cfg s).dispatched = true ∧
      (stepCPU cfg s).executed = false ∧
      (stepCPU cfg s).state.interruptWaitInstruction = true ∧
      (stepCPU cfg s).state.instructionCycles = 4 ∧
      (stepCPU cfg s).state.pmicStatus = (s.pmicStatus ||| (1 <<< (lvl - 1))) ∧
      (stepCPU cfg s).state.pc = 2 * iv + (if s.pmicIvsel then cfg.flashBootStart else 0) ∧
      DevEvent.executeIv (iv - cfg.ivBase iv) iv ∈ (stepCPU cfg s).state.events ∧
      (cfg.flashSize ≤ 0x20000 →
        (stepCPU cfg s).state.sp = (s.sp + 65534) % 65536 ∧
        (stepCPU cfg s).state.sram = stackSet16 s.sram s.sp s.pc) ∧
      (¬ cfg.flashSize ≤ 0x20000 →
        (stepCPU cfg s).state.sp = (s.sp + 65533) % 65536 ∧
        (stepCPU cfg s).state.sram = stackSet24 s.sram s.sp s.pc) ∧
      (lvl = 4 → (stepCPU cfg s).state.pendNmi = s.pendNmi.erase iv ∧ iv = qMin s.pendNmi) ∧
      (lvl = 3 → (stepCPU cfg s).state.pendHi = s.pendHi.erase iv ∧ iv = qMin s.pendHi) ∧
      (lvl = 2 → (stepCPU cfg s).state.pendMed = s.pendMed.erase iv ∧ iv = qMin s.pendMed) ∧
      (lvl = 1 → (stepCPU cfg s).state.pendLo = s.pendLo.erase iv ∧ iv = qMin s.pendLo)) := by
  constructor
  · intro hnone
    have hb := ppi_spec cfg { s with breaked := false }
    have hn0 : specArb { s with breaked := false } = none := hnone
    rw [hn0] at hb
    dsimp only at hb
    unfold stepCPU
    dsimp only
    rw [if_pos ⟨hc, hw, hI, hccp⟩, hb]
    simp
  · intro lvl iv hsome
    have hchar := specArb_char s lvl iv hsome
    have hs0 : specArb { s with breaked := false } = some (lvl, iv) := hsome
    rcases hchar.1 with hlvl | hlvl | hlvl | hlvl
    · subst hlvl
      have hb4 : processPendingInterrupts cfg { s with breaked := false } =
          (true, ackIv cfg { s with breaked := false, pendNmi := s.pendNmi.erase iv } 4 iv) := by
        rw [ppi_spec, hs0]
      have hf := ackIv_fields cfg { s with breaked := false, pendNmi := s.pendNmi.erase iv } 4 iv
      unfold stepCPU
      dsimp only
      rw [if_pos ⟨hc, hw, hI, hccp⟩, hb4]
      exact ⟨rfl, rfl, rfl, rfl, hf.1, hf.2.1, hf.2.2.1, hf.2.2.2.1, hf.2.2.2.2.1,
        fun _ => ⟨hf.2.2.2.2.2.2.2.2, hchar.2.1 rfl⟩,
        fun h => absurd h (by decide), fun h => absurd h (by decide),
        fun h => absurd h (by decide)⟩
    · subst hlvl
      have hb3 : processPendingInterrupts cfg { s with breaked := false } =
          (true, ackIv cfg { s with breaked := false, pendHi := s.pendHi.erase iv } 3 iv) := by
        rw [ppi_spec, hs0]
      have hf := ackIv_fields cfg { s with breaked := false, pendHi := s.pendHi.erase iv } 3 iv
      unfold stepCPU
      dsimp only
      rw [if_pos ⟨hc, hw, hI, hccp⟩, hb3]
      exact ⟨rfl, rfl, rfl, rfl, hf.1, hf.2.1, hf.2.2.1, hf.2.2.2.1, hf.2.2.2.2.1,
        fun h => absurd h (by decide),
        fun _ => ⟨hf.2.2.2.2.2.2.2.1, hchar.2.2.1 rfl⟩,
        fun h => absurd h (by decide), fun h => absurd h (by decide)⟩
    · subst hlvl
      have hb2 : processPendingInterrupts cfg { s with breaked := false } =
          (true, ackIv cfg { s with breaked := false, pendMed := s.pendMed.erase iv } 2 iv) := by
        rw [ppi_spec, hs0]
      have hf := ackIv_fields cfg { s with breaked := false, pendMed := s.pendMed.erase iv } 2 iv
      unfold stepCPU
      dsimp only
      rw [if_pos ⟨hc, hw, hI, hccp⟩, hb2]
      exact ⟨rfl, rfl, rfl, rfl, hf.1, hf.2.1, hf.2.2.1, hf.2.2.2.1, hf.2.2.2.2.1,
        fun h => absurd h (by decide), fun h => absurd h (by decide),
        fun _ => ⟨hf.2.2.2.2.2.2.1, hchar.2.2.2.1 rfl⟩,
        fun h => absurd h (by decide)⟩
    · subst hlvl
      have hb1 : processPendingInterrupts cfg { s with breaked := false } =
          (true, ackIv cfg { s with breaked := false, pendLo := s.pendLo.erase iv } 1 iv) := by
        rw [ppi_spec, hs0]
      have hf := ackIv_fields cfg { s with breaked := false, pendLo := s.pendLo.erase iv } 1 iv
      unfold stepCPU
      dsimp only
      rw [if_pos ⟨hc, hw, hI, hccp⟩, hb1]
      exact ⟨rfl, rfl, rfl, rfl, hf.1, hf.2.1, hf.2.2.1, hf.2.2.2.1, hf.2.2.2.2.1,
        fun h => absurd h (by decide), fun h => absurd h (by decide),
        fun h => absurd h (by decide),
        fun _ => ⟨hf.2.2.2.2.2.1, hchar.2.2.2.2 rfl⟩⟩

/-- Counterexample state for C1 as literally stated: an NMI is already
being serviced (nmiex set) while another NMI vector is pending and all
dispatch gates hold. -/
def c1ce : DeviceState := { base with sreg := 0x80, pmicStatus := 8, pendNmi := {5} }

/-- C1 counterexample: the claim says arbitration selects NMI whenever
any NMI vector is pending, but with nmiex already set the code
declines: no dispatch happens, the vector stays queued and the status
byte is unchanged. -/
theorem c1_counterexample :
    c1ce.instructionCycles = 0 ∧ c1ce.interruptWaitInstruction = false ∧
    sregI c1ce = true ∧ c1ce.ccp = 0 ∧ c1ce.pendNmi.Nonempty ∧
    (stepCPU baseCfg c1ce).dispatched = false ∧
    5 ∈ (stepCPU baseCfg c1ce).state.pendNmi ∧
    (stepCPU baseCfg c1ce).state.pmicStatus = c1ce.pmicStatus := by decide

/-- Witness state for C1: vector 3 pending at LO with lolvlen and I
set. -/
def c1state : DeviceState := { base with sreg := 0x80, pmicLolvlen := true, pendLo := {3} }

/-- Closed witness for c1_interrupt_dispatch: dispatching vector 3 at
LO from c1state redirects PC to 6, records the executeIv call and
charges the debt. -/
theorem c1_interrupt_dispatch_witness :
    (stepCPU baseCfg c1state).dispatched = true ∧
    (stepCPU baseCfg c1state).executed = false ∧
    (stepCPU baseCfg c1state).state.instructionCycles = 4 ∧
    (stepCPU baseCfg c1state).state.pc
      = 2 * 3 + (if c1state.pmicIvsel then baseCfg.flashBootStart else 0) ∧
    DevEvent.executeIv (3 - baseCfg.ivBase 3) 3 ∈ (stepCPU baseCfg c1state).state.events ∧
    ((1 : Nat) = 1 → (stepCPU baseCfg c1state).state.pendLo = c1state.pendLo.erase 3 ∧
      3 = qMin c1state.pendLo) := by
  have h := (c1_interrupt_dispatch baseCfg c1state rfl rfl rfl rfl).2 1 3 (by decide)
  exact ⟨h.1, h.2.1, h.2.2.2.1, h.2.2.2.2.2.1, h.2.2.2.2.2.2.1, h.2.2.2.2.2.2.2.2.2.2.2.2⟩

/-- The comparator is reflexive. -/
lemma evLe_refl (a : ClockEvent) : evLe a a = true := by
  simp [evLe]

/-- The comparator is total. -/
lemma evLe_total (a b : ClockEvent) : evLe a b = true ∨ evLe b a = true := by
  simp only [evLe, decide_eq_true_eq]
  omega

/-- The comparator is transitive. -/
lemma evLe_trans {a b c : ClockEvent} (h1 : evLe a b = true) (h2 : evLe b c = true) :
    evLe a c = true := by
  simp only [evLe, decide_eq_true_eq] at h1 h2 ⊢
  omega

/-- selMin returns none only on the empty queue. -/
lemma selMin_eq_none : ∀ {q : List ClockEvent}, selMin q = none → q = [] := by
  intro q h
  cases q with
  | nil => rfl
  | cons e rest =>
    simp only [selMin] at h
    cases hs : selMin rest with
    | none => rw [hs] at h; exact absurd h (by simp)
    | some p =>
      obtain ⟨m, others⟩ := p
      rw [hs] at h
      dsimp only at h
      split_ifs at h

/-- selMin removes exactly one copy of the returned event. -/
lemma selMin_perm : ∀ {q : List ClockEvent} {e rest},
    selMin q = some (e, rest) → q.Perm (e :: rest) := by
  intro q
  induction q with
  | nil => intro e rest h; exact absurd h (by simp [selMin])
  | cons a l ih =>
    intro e rest h
    simp only [selMin] at h
    cases hs : selMin l with
    | none =>
      rw [hs] at h
      dsimp only at h
      have hl : l = [] := selMin_eq_none hs
      simp only [Option.some_inj, Prod.mk.injEq] at h
      obtain ⟨he, hr⟩ := h
      subst he; subst hr; subst hl
      exact List.Perm.refl _
    | some p =>
      obtain ⟨m, others⟩ := p
      rw [hs] at h
      dsimp only at h
      split_ifs at h with hle
      · simp only [Option.some_inj, Prod.mk.injEq] at h
        obtain ⟨he, hr⟩ := h
        subst he; subst hr
        exact List.Perm.refl _
      · simp only [Option.some_inj, Prod.mk.injEq] at h
        obtain ⟨he, hr⟩ := h
        subst he; subst hr
        exact (List.Perm.cons a (ih hs)).trans (List.Perm.swap m a others)

/-- selMin returns a comparator minimum of the queue. -/
lemma selMin_min : ∀ {q : List ClockEvent} {e rest},
    selMin q = some (e, rest) → ∀ x ∈ q, evLe e x = true := by
  intro q
  induction q with
  | nil => intro e rest h; exact absurd h (by simp [selMin])
  | cons a l ih =>
    intro e rest h x hx
    simp only [selMin] at h
    cases hs : selMin l with
    | none =>
      rw [hs] at h
      dsimp only at h
      have hl : l = [] := selMin_eq_none hs
      simp only [Option.some_inj, Prod.mk.injEq] at h
      obtain ⟨he, -⟩ := h
      subst he; subst hl
      rcases List.mem_singleton.mp hx with rfl
      exact evLe_refl _
    | some p =>
      obtain ⟨m, others⟩ := p
      rw [hs] at h
      dsimp only at h
      have ihm : ∀ y ∈ l, evLe m y = true := fun y hy => ih hs y hy
      split_ifs at h with hle
      · simp only [Option.some_inj, Prod.mk.injEq] at h
        obtain ⟨he, -⟩ := h
        subst he
        rcases List.mem_cons.mp hx with rfl | hxl
        · exact evLe_refl _
        · exact evLe_trans hle (ihm x hxl)
      · simp only [Option.some_inj, Prod.mk.injEq] at h
        obtain ⟨he, -⟩ := h
        subst he
        rcases List.mem_cons.mp hx with rfl | hxl
        · rcases evLe_total x m with hxm | hmx
          · exact absurd hxm hle
          · exact hmx
        · exact ihm x hxl

/-- One firing-loop step with fuel left, the comparator minimum
popped, and the minimum due: the unfolding equation of stepRun. -/
lemma stepRun_succ (fuel cur : Nat) (q : List ClockEvent) (e : ClockEvent)
    (rest : List ClockEvent) (hsel : selMin q = some (e, rest)) (hdue : ¬ cur < e.tick) :
    stepRun (fuel + 1) cur q =
      ((stepRun fuel cur (match e.script with
          | [] => rest
          | n :: sc => if n = 0 then rest
              else { e with tick := e.tick + n * e.scale, script := sc } :: rest)).1,
        ({ tick := e.tick, priority := e.priority, seq := e.seq } : Fire) ::
        (stepRun fuel cur (match e.script with
          | [] => rest
          | n :: sc => if n = 0 then rest
              else { e with tick := e.tick + n * e.scale, script := sc } :: rest)).2) := by
  conv_lhs => unfold stepRun; rw [hsel]
  dsimp only
  rw [if_neg hdue]

/-- Within one draining loop at tick cur over a queue whose events all
lie at or beyond cur, have pairwise distinct sequence numbers and
scales at least 1: every firing happens exactly at cur and mirrors the
priority and sequence number of a queued event due at cur, and the
firing list is strictly increasing in (priority, sequence). -/
lemma stepRun_fires : ∀ (fuel : Nat) (cur : Nat) (q : List ClockEvent),
    (∀ e ∈ q, cur ≤ e.tick) →
    List.Pairwise (fun a b : ClockEvent => a.seq ≠ b.seq) q →
    (∀ e ∈ q, 1 ≤ e.scale) →
    (∀ f ∈ (stepRun fuel cur q).2, f.tick = cur ∧
       ∃ x ∈ q, x.tick = cur ∧ f.priority = x.priority ∧ f.seq = x.seq) ∧
    List.Pairwise (fun a b : Fire =>
      a.priority < b.priority ∨ (a.priority = b.priority ∧ a.seq < b.seq))
      (stepRun fuel cur q).2 := by
  intro fuel
  induction fuel with
  | zero =>
    intro cur q h1 h2 h3
    simp [stepRun]
  | succ fuel ih =>
    intro cur q h1 h2 h3
    cases hsel : selMin q with
    | none =>
      unfold stepRun
      rw [hsel]
      simp
    | some p =>
      obtain ⟨e, rest⟩ := p
      by_cases hdue : cur < e.tick
      · unfold stepRun
        rw [hsel]
        dsimp only
        rw [if_pos hdue]
        simp
      · have hperm := selMin_perm hsel
        have hmem_e : e ∈ q := hperm.symm.subset (List.mem_cons_self e rest)
        have hetick : e.tick = cur := Nat.le_antisymm (Nat.le_of_not_lt hdue) (h1 e hmem_e)
        have hsub : ∀ x ∈ rest, x ∈ q := fun x hx => hperm.symm.subset (List.mem_cons_of_mem _ hx)
        have h1r : ∀ x ∈ rest, cur ≤ x.tick := fun x hx => h1 x (hsub x hx)
        have h2er : List.Pairwise (fun a b : ClockEvent => a.seq ≠ b.seq) (e :: rest) :=
          h2.perm hperm (fun hab => Ne.symm hab)
        have h2r : List.Pairwise (fun a b : ClockEvent => a.seq ≠ b.seq) rest :=
          (List.pairwise_cons.mp h2er).2
        have heseq : ∀ x ∈ rest, e.seq ≠ x.seq := (List.pairwise_cons.mp h2er).1
        have h3r : ∀ x ∈ rest, 1 ≤ x.scale := fun x hx => h3 x (hsub x hx)
        have hmin : ∀ x ∈ q, evLe e x = true := selMin_min hsel
        -- the queue after this firing
        have hq1 : ∀ q1 : List ClockEvent,
            (∀ x ∈ q1, cur ≤ x.tick) →
            List.Pairwise (fun a b : ClockEvent => a.seq ≠ b.seq) q1 →
            (∀ x ∈ q1, 1 ≤ x.scale) →
            (∀ x ∈ q1, x.tick = cur → x ∈ rest) →
            (∀ f ∈ (⟨e.tick, e.priority, e.seq⟩ : Fire) :: (stepRun fuel cur q1).2,
               f.tick = cur ∧ ∃ x ∈ q, x.tick = cur ∧ f.priority = x.priority ∧ f.seq = x.seq) ∧
            List.Pairwise (fun a b : Fire =>
              a.priority < b.priority ∨ (a.priority = b.priority ∧ a.seq < b.seq))
              ((⟨e.tick, e.priority, e.seq⟩ : Fire) :: (stepRun fuel cur q1).2) := by
          intro q1 k1 k2 k3 krest
          obtain ⟨ihA, ihB⟩ := ih cur q1 k1 k2 k3
          constructor
          · intro f hf
            rcases List.mem_cons.mp hf with rfl | hf'
            · exact ⟨hetick, e, hmem_e, hetick, rfl, rfl⟩
            · obtain ⟨hft, x, hxq1, hxt, hfp, hfs⟩ := ihA f hf'
              exact ⟨hft, x, hsub x (krest x hxq1 hxt), hxt, hfp, hfs⟩
          · refine List.pairwise_cons.mpr ⟨?_, ihB⟩
            intro f hf
            obtain ⟨hft, x, hxq1, hxt, hfp, hfs⟩ := ihA f hf
            have hxr : x ∈ rest := krest x hxq1 hxt
            have hex := hmin x (hsub x hxr)
            simp only [evLe, decide_eq_true_eq] at hex
            have hne : e.seq ≠ x.seq := heseq x hxr
            rw [hfp, hfs]
            show e.priority < x.priority ∨ (e.priority = x.priority ∧ e.seq < x.seq)
            omega
        cases hscript : e.script with
        | nil =>
          rw [stepRun_succ fuel cur q e rest hsel hdue, hscript]
          dsimp only
          exact hq1 rest h1r h2r h3r (fun x hx _ => hx)
        | cons n sc =>
          by_cases hn : n = 0
          · rw [stepRun_succ fuel cur q e rest hsel hdue, hscript]
            dsimp only
            rw [if_pos hn]
            exact hq1 rest h1r h2r h3r (fun x hx _ => hx)
          · rw [stepRun_succ fuel cur q e rest hsel hdue, hscript]
            dsimp only
            rw [if_neg hn]
            have hsc : 1 ≤ e.scale := h3 e hmem_e
            have hn1 : 1 ≤ n := Nat.one_le_iff_ne_zero.mpr hn
            have htgt : cur < e.tick + n * e.scale := by
              have hge : 1 ≤ n * e.scale := by simpa using Nat.mul_le_mul hn1 hsc
              omega
            refine hq1 _ ?_ ?_ ?_ ?_
            · intro x hx
              rcases List.mem_cons.mp hx with rfl | hx'
              · exact Nat.le_of_lt htgt
              · exact h1r x hx'
            · exact List.pairwise_cons.mpr ⟨fun x hx => heseq x hx, h2r⟩
            · intro x hx
              rcases List.mem_cons.mp hx with rfl | hx'
              · exact hsc
              · exact h3r x hx'
            · intro x hx hxt
              rcases List.mem_cons.mp hx with rfl | hx'
              · exact absurd hxt (by dsimp only; omega)
              · exact hx'

/-- C3: within one step() call over a queue with pairwise distinct
insertion sequence numbers and domain scales at least 1 (a scale is a
product of nonzero prescaler divisors), every pair of firings at the
same SYS tick happens in ascending priority order, and firings with
equal tick and equal priority happen in insertion order. -/
theorem c3_step_ordering (fuel : Nat) (q : List ClockEvent)
    (hseq : List.Pairwise (fun a b : ClockEvent => a.seq ≠ b.seq) q)
    (hscale : ∀ e ∈ q, 1 ≤ e.scale) :
    List.Pairwise (fun a b : Fire => a.tick = b.tick →
      a.priority < b.priority ∨ (a.priority = b.priority ∧ a.seq < b.seq))
      (deviceStep fuel q).2 := by
  unfold deviceStep
  cases hsel : selMin q with
  | none => exact List.Pairwise.nil
  | some p =>
    obtain ⟨e, rest⟩ := p
    dsimp only
    have h1 : ∀ x ∈ q, e.tick ≤ x.tick := by
      intro x hx
      have hx' := selMin_min hsel x hx
      simp only [evLe, decide_eq_true_eq] at hx'
      omega
    refine ((stepRun_fires fuel e.tick q h1 hseq hscale).2).imp ?_
    intro a b hab hticks
    exact hab

/-- Witness queue for C3: three events due at tick 10, one at priority
0, two at priority 1 inserted in sequence order 0 then 2; the first
priority-1 event reschedules itself beyond the step on firing. -/
def c3q : List ClockEvent :=
  [{ clock := .sys, priority := 1, tick := 10, scale := 1, seq := 0, script := [2, 0] },
   { clock := .per, priority := 0, tick := 10, scale := 1, seq := 1, script := [0] },
   { clock := .sys, priority := 1, tick := 10, scale := 1, seq := 2, script := [0] }]

/-- Closed witness for c3_step_ordering: on c3q the hypotheses hold
and the step fires priority 0 first, then the priority-1 events in
insertion order. -/
theorem c3_step_ordering_witness :
    List.Pairwise (fun a b : ClockEvent => a.seq ≠ b.seq) c3q ∧
    (∀ e ∈ c3q, 1 ≤ e.scale) ∧
    List.Pairwise (fun a b : Fire => a.tick = b.tick →
      a.priority < b.priority ∨ (a.priority = b.priority ∧ a.seq < b.seq))
      (deviceStep 5 c3q).2 ∧
    (deviceStep 5 c3q).2 =
      [{ tick := 10, priority := 0, seq := 1 }, { tick := 10, priority := 1, seq := 0 },
       { tick := 10, priority := 1, seq := 2 }] :=
  ⟨by decide, by decide, c3_step_ordering 5 c3q (by decide) (by decide), by decide⟩
